import Mathlib

/-!
# gif_reader: a shallow embedding of `ScreenRecorderLibNative/gif_reader.cpp`

The animated-GIF reader composes frames on a Direct2D render target, driven by
the metadata a WIC decoder reports.  The decoder, the drawing surface and the
graphics device are external services: every answer they give (an `HRESULT`,
a metadata value, a bitmap) is an input of the embedded function, so that a
theorem quantifying over the answers covers every behaviour of the services.

Conventions.
* `HRESULT` is a signed 32-bit integer, embedded as `Int`; success is `0 ≤ hr`.
* `UINT` variables are `Nat`, reduced `% 2 ^ 32` where the code can wrap.
* A pointer member is an `Option` or a `Bool` (`none`, `false` is `NULL`); a
  function returns `none` where the code would dereference `NULL` or divide by
  zero.
* A function of the source that is long is embedded in stages named after it
  (`GetRawFrame_decode`, `GetRawFrame_delay`, ...), each with its source lines.
* `RETURN_ON_BAD_HR(hr = call)` is a macro of a header that is not part of the
  sources at hand; as its name says, it returns `hr` from the enclosing function
  at once when `hr` is a failure, and is embedded as `if FAILED hr then` return.
-/

namespace GifReader

/-! ## Result codes -/

abbrev HRESULT := Int

def S_OK : HRESULT := 0
def E_FAIL : HRESULT := -2147467259
def E_OUTOFMEMORY : HRESULT := -2147024882
def DXGI_ERROR_WAIT_TIMEOUT : HRESULT := -2005270489
def INTSAFE_E_ARITHMETIC_OVERFLOW : HRESULT := -2147024362

def SUCCEEDED (hr : HRESULT) : Bool := decide (0 ≤ hr)

def FAILED (hr : HRESULT) : Bool := decide (hr < 0)

/-- Reinterpretation of a 32-bit pattern as a signed `int` (the `(int)` cast). -/
def toInt32 (n : Nat) : Int :=
  if n % 2 ^ 32 < 2 ^ 31 then ((n % 2 ^ 32 : Nat) : Int) else ((n % 2 ^ 32 : Nat) : Int) - 2 ^ 32

/-- Conversion of a signed value to `UINT` (reduction modulo `2 ^ 32`). -/
def toUInt32 (i : Int) : Nat := (i % 2 ^ 32).toNat

/-! ## Metadata values -/

/-- The shapes of `PROPVARIANT` the reader distinguishes by `vt`. -/
inductive PROPVARIANT where
  | VT_EMPTY
  | VT_UI1 (bVal : Nat)
  | VT_UI2 (uiVal : Nat)
  | VT_BOOL (boolVal : Bool)
  | VT_UI1_VECTOR (caub : List Nat)
  | VT_OTHER
  deriving DecidableEq, Repr

/-- The answer of `GetMetadataByName`: a result code and the value read. -/
structure MetadataAnswer where
  hr : HRESULT
  value : PROPVARIANT
  deriving DecidableEq, Repr

/-! ## Pixels, rectangles, surfaces -/

/-- A 32bpp premultiplied BGRA pixel. -/
structure Pixel where
  b : Nat
  g : Nat
  r : Nat
  a : Nat
  deriving DecidableEq, Repr

def Pixel.transparent : Pixel := ⟨0, 0, 0, 0⟩

/-- Source-over blending of premultiplied pixels, the default composite of `DrawBitmap`. -/
def Pixel.over (src dst : Pixel) : Pixel :=
  ⟨src.b + dst.b * (255 - src.a) / 255,
   src.g + dst.g * (255 - src.a) / 255,
   src.r + dst.r * (255 - src.a) / 255,
   src.a + dst.a * (255 - src.a) / 255⟩

/-- A bitmap or surface content: the pixel at column `x`, row `y`. -/
abbrev Canvas := Nat → Nat → Pixel

/-- The frame rectangle `m_framePosition`; its coordinates are sums of 16-bit
fields, which the `FLOAT` members hold exactly. -/
structure D2D1_RECT_F where
  left : Nat
  top : Nat
  right : Nat
  bottom : Nat
  deriving DecidableEq, Repr

/-- The pixels a rectangle covers, at one pixel per unit (96 dpi): columns
`left ≤ x < right`, rows `top ≤ y < bottom`. -/
def D2D1_RECT_F.contains (rc : D2D1_RECT_F) (x y : Nat) : Bool :=
  decide (rc.left ≤ x) && decide (x < rc.right) && decide (rc.top ≤ y) && decide (y < rc.bottom)

/-- The call `Clear(NULL)` under `PushAxisAlignedClip(&clip, ...)`: transparent black inside the clip. -/
def ClearClipped (clip : D2D1_RECT_F) (c : Canvas) : Canvas :=
  fun x y => if clip.contains x y then Pixel.transparent else c x y

/-- The call `Clear(NULL)` without a clip: the whole surface becomes transparent black. -/
def ClearAll (_c : Canvas) : Canvas :=
  fun _ _ => Pixel.transparent

/-- The call `DrawBitmap(bitmap, rc)`: the bitmap is composited over the surface inside `rc`. -/
def DrawBitmap (bitmap : Canvas) (rc : D2D1_RECT_F) (c : Canvas) : Canvas :=
  fun x y => if rc.contains x y then Pixel.over (bitmap (x - rc.left) (y - rc.top)) (c x y) else c x y

/-- The transaction contract of the drawing surface, an external service, as the
specification states it (section 4.2): a drawing transaction (`BeginDraw` ...
`EndDraw`) commits what was drawn when `EndDraw` succeeds and leaves the surface
as it was when `EndDraw` fails. -/
def EndDraw (hr : HRESULT) (before drawn : Canvas) : Canvas :=
  if SUCCEEDED hr then drawn else before

/-! ## Disposal methods

The enumeration is declared in `gif_reader.h`, which is not part of the sources at
hand; the values are the disposal codes of GIF89a, which `m_uFrameDisposal`
receives unchanged from the file ("disposal 3" is `DM_PREVIOUS` in the source). -/

def DM_UNDEFINED : Nat := 0
def DM_NONE : Nat := 1
def DM_BACKGROUND : Nat := 2
def DM_PREVIOUS : Nat := 3

/-! ## The reader -/

/-- The background colour: the low 24 bits of the palette entry and its alpha byte
(`alpha / 255.f` in the source). -/
structure ColorF where
  rgb : Nat
  alpha : Nat
  deriving DecidableEq, Repr

/-- The members of `gif_reader` that the embedded functions read or write. -/
structure gif_reader where
  m_RenderTarget : Bool
  m_pFrameComposeRT : Option Canvas
  m_pRawFrame : Option Canvas
  m_pSavedFrame : Option Canvas
  m_RenderTexture : Bool
  m_Device : Bool
  m_pD2DFactory : Bool
  m_pIWICFactory : Bool
  m_pDecoder : Bool
  m_uNextFrameIndex : Nat
  m_uTotalLoopCount : Nat
  m_uLoopNumber : Nat
  m_fHasLoop : Bool
  m_uFrameDisposal : Nat
  m_uFrameDelay : Nat
  m_cFrames : Nat
  m_cxGifImage : Nat
  m_cyGifImage : Nat
  m_cxGifImagePixel : Nat
  m_cyGifImagePixel : Nat
  m_framePosition : D2D1_RECT_F
  m_backgroundColor : ColorF
  m_captureLoopStarted : Bool

/-! ## Answers of the external services -/

/-- What the decoder answers while `GetRawFrame` reads one frame. -/
structure FrameAnswers where
  GetFrame : HRESULT
  CreateFormatConverter : HRESULT
  ConverterInitialize : HRESULT
  CreateBitmapFromWicBitmap : HRESULT
  bitmap : Canvas
  GetMetadataQueryReader : HRESULT
  Left : MetadataAnswer
  Top : MetadataAnswer
  Width : MetadataAnswer
  Height : MetadataAnswer
  Delay : MetadataAnswer
  Disposal : MetadataAnswer

/-- What the drawing surface answers during one dispose-then-overlay step. -/
structure SurfaceAnswers where
  ClearEndDraw : HRESULT
  RestoreGetBitmap : HRESULT
  RestoreCopyFromBitmap : HRESULT
  SaveGetBitmap : HRESULT
  SaveCreateBitmap : HRESULT
  SaveCopyFromBitmap : HRESULT
  OverlayEndDraw : HRESULT
  deriving DecidableEq, Repr

/-- The services during one dispose-then-overlay step: the decoder, asked by
frame index, and the drawing surface. -/
structure StepAnswers where
  decode : Nat → FrameAnswers
  surface : SurfaceAnswers

/-! ## GetRawFrame (lines 418-586) -/

/-- The function `UIntMult` of intsafe.h: the product when it fits 32 bits, else an overflow error. -/
def UIntMult (a b : Nat) : HRESULT × Nat :=
  if a * b < 2 ^ 32 then (S_OK, a * b) else (INTSAFE_E_ARITHMETIC_OVERFLOW, 2 ^ 32 - 1)

/-- The result of one mandatory 16-bit read: the call's failure, or `E_FAIL` on a
type other than `VT_UI2`. -/
def readUI2 (m : MetadataAnswer) : HRESULT × Option Nat :=
  if SUCCEEDED m.hr then
    match m.value with
    | PROPVARIANT.VT_UI2 v => (S_OK, some v)
    | _ => (E_FAIL, none)
  else (m.hr, none)

/-- Lines 427-444: decode the frame and convert it to 32bppPBGRA. -/
def GetRawFrame_convert (resp : FrameAnswers) : HRESULT :=
  let hr0 := resp.GetFrame
  let hr1 := if SUCCEEDED hr0 then resp.CreateFormatConverter else hr0
  if SUCCEEDED hr1 then resp.ConverterInitialize else hr1

/-- Lines 427-460: decode the frame, convert it, create the D2D bitmap, get the
frame's metadata reader. -/
def GetRawFrame_decode (resp : FrameAnswers) (s : gif_reader) : Option (HRESULT × gif_reader) :=
  if SUCCEEDED (GetRawFrame_convert resp) then
    if s.m_RenderTarget then
      some (if SUCCEEDED resp.CreateBitmapFromWicBitmap then resp.GetMetadataQueryReader
            else resp.CreateBitmapFromWicBitmap,
            { s with m_pRawFrame :=
                if SUCCEEDED resp.CreateBitmapFromWicBitmap then some resp.bitmap else none })
    else none
  else some (GetRawFrame_convert resp, s)

/-- Lines 463-519 on the rectangle alone: the four mandatory geometry fields,
read while the result code is a success. -/
def GetRawFrame_rect (resp : FrameAnswers) (hr : HRESULT) (rc : D2D1_RECT_F) : HRESULT × D2D1_RECT_F :=
  let p1 : HRESULT × D2D1_RECT_F :=
    if SUCCEEDED hr then
      match readUI2 resp.Left with
      | (h, some v) => (h, { rc with left := v })
      | (h, none) => (h, rc)
    else (hr, rc)
  let p2 : HRESULT × D2D1_RECT_F :=
    if SUCCEEDED p1.1 then
      match readUI2 resp.Top with
      | (h, some v) => (h, { p1.2 with top := v })
      | (h, none) => (h, p1.2)
    else p1
  let p3 : HRESULT × D2D1_RECT_F :=
    if SUCCEEDED p2.1 then
      match readUI2 resp.Width with
      | (h, some v) => (h, { p2.2 with right := v + p2.2.left })
      | (h, none) => (h, p2.2)
    else p2
  if SUCCEEDED p3.1 then
    match readUI2 resp.Height with
    | (h, some v) => (h, { p3.2 with bottom := v + p3.2.top })
    | (h, none) => (h, p3.2)
  else p3

/-- Lines 463-519. -/
def GetRawFrame_geometry (resp : FrameAnswers) (p : HRESULT × gif_reader) : HRESULT × gif_reader :=
  ((GetRawFrame_rect resp p.1 p.2.m_framePosition).1,
   { p.2 with m_framePosition := (GetRawFrame_rect resp p.1 p.2.m_framePosition).2 })

/-- Lines 523-556 on the delay alone, entered with a success `hr`: the optional
delay of the Graphic Control Extension, in 10 ms units, and the artificial delay
for very small values. -/
def GetRawFrame_delayValue (Delay : MetadataAnswer) (hr : HRESULT) (m_uFrameDelay : Nat) : HRESULT × Nat :=
  let q : HRESULT × Nat :=
    if SUCCEEDED Delay.hr then
      match Delay.value with
      | PROPVARIANT.VT_UI2 v => UIntMult v 10
      | _ => (E_FAIL, m_uFrameDelay)
    else (hr, 0)
  if SUCCEEDED q.1 then
    if q.2 < 20 then (q.1, 90) else q
  else q

/-- Lines 521-557. -/
def GetRawFrame_delay (resp : FrameAnswers) (p : HRESULT × gif_reader) : HRESULT × gif_reader :=
  if SUCCEEDED p.1 then
    ((GetRawFrame_delayValue resp.Delay p.1 p.2.m_uFrameDelay).1,
     { p.2 with m_uFrameDelay := (GetRawFrame_delayValue resp.Delay p.1 p.2.m_uFrameDelay).2 })
  else p

/-- Lines 561-576 on the disposal alone, entered with a success `hr`. -/
def GetRawFrame_disposalValue (Disposal : MetadataAnswer) (hr : HRESULT) (m_uFrameDisposal : Nat) :
    HRESULT × Nat :=
  if SUCCEEDED Disposal.hr then
    match Disposal.value with
    | PROPVARIANT.VT_UI1 v => (S_OK, v)
    | _ => (E_FAIL, m_uFrameDisposal)
  else (hr, DM_UNDEFINED)

/-- Lines 559-577: the optional disposal method. -/
def GetRawFrame_disposal (resp : FrameAnswers) (p : HRESULT × gif_reader) : HRESULT × gif_reader :=
  if SUCCEEDED p.1 then
    ((GetRawFrame_disposalValue resp.Disposal p.1 p.2.m_uFrameDisposal).1,
     { p.2 with m_uFrameDisposal := (GetRawFrame_disposalValue resp.Disposal p.1 p.2.m_uFrameDisposal).2 })
  else p

def GetRawFrame (resp : FrameAnswers) (s : gif_reader) : Option (HRESULT × gif_reader) :=
  (GetRawFrame_decode resp s).map
    (fun p => GetRawFrame_disposal resp (GetRawFrame_delay resp (GetRawFrame_geometry resp p)))

/-! ## The disposal and compose engine (lines 667-874) -/

/-- Lines 788-812 on the bitmaps alone: the result code and the saved bitmap,
created on first use and overwritten with the composed surface. -/
def SaveComposedFrame_copy (a : SurfaceAnswers) (composed : Canvas) (saved : Option Canvas) :
    HRESULT × Option Canvas :=
  let p1 : HRESULT × Option Canvas :=
    if SUCCEEDED a.SaveGetBitmap then
      match saved with
      | none =>
          (a.SaveCreateBitmap,
           if SUCCEEDED a.SaveCreateBitmap then some (fun _ _ => Pixel.transparent) else none)
      | some b => (a.SaveGetBitmap, some b)
    else (a.SaveGetBitmap, saved)
  if SUCCEEDED p1.1 then
    (a.SaveCopyFromBitmap, if SUCCEEDED a.SaveCopyFromBitmap then some composed else p1.2)
  else p1

/-- Lines 784-817: copy the composed surface into `m_pSavedFrame`, creating the
bitmap on first use. -/
def SaveComposedFrame (a : SurfaceAnswers) (s : gif_reader) : Option (HRESULT × gif_reader) :=
  match s.m_pFrameComposeRT with
  | none => none
  | some composed =>
    some ((SaveComposedFrame_copy a composed s.m_pSavedFrame).1,
          { s with m_pSavedFrame := (SaveComposedFrame_copy a composed s.m_pSavedFrame).2 })

/-- Lines 675-684 on the bitmaps alone: the result code and the composed surface
after `CopyFromBitmap(NULL, m_pSavedFrame, NULL)`. -/
def RestoreSavedFrame_copy (a : SurfaceAnswers) (saved composed : Canvas) : HRESULT × Canvas :=
  if SUCCEEDED a.RestoreGetBitmap then
    (a.RestoreCopyFromBitmap, if SUCCEEDED a.RestoreCopyFromBitmap then saved else composed)
  else (a.RestoreGetBitmap, composed)

/-- Lines 667-689: copy `m_pSavedFrame` back over the whole composed surface. -/
def RestoreSavedFrame (a : SurfaceAnswers) (s : gif_reader) : Option (HRESULT × gif_reader) :=
  match s.m_pSavedFrame with
  | none => some (E_FAIL, s)
  | some saved =>
    match s.m_pFrameComposeRT with
    | none => none
    | some composed =>
      some ((RestoreSavedFrame_copy a saved composed).1,
            { s with m_pFrameComposeRT := some (RestoreSavedFrame_copy a saved composed).2 })

/-- Lines 691-706: clear the composed surface, clipped to `m_framePosition`. -/
def ClearCurrentFrameArea (a : SurfaceAnswers) (s : gif_reader) : Option (HRESULT × gif_reader) :=
  match s.m_pFrameComposeRT with
  | none => none
  | some composed =>
    some (a.ClearEndDraw,
          { s with m_pFrameComposeRT :=
                      some (EndDraw a.ClearEndDraw composed (ClearClipped s.m_framePosition composed)) })

/-- Lines 708-734. -/
def DisposeCurrentFrame (a : SurfaceAnswers) (s : gif_reader) : Option (HRESULT × gif_reader) :=
  if s.m_uFrameDisposal = DM_UNDEFINED ∨ s.m_uFrameDisposal = DM_NONE then some (S_OK, s)
  else if s.m_uFrameDisposal = DM_BACKGROUND then ClearCurrentFrameArea a s
  else if s.m_uFrameDisposal = DM_PREVIOUS then RestoreSavedFrame a s
  else some (E_FAIL, s)

/-- Lines 750-769: the drawing transaction of `OverlayNextFrame`. -/
def OverlayNextFrame_draw (a : SurfaceAnswers) (s : gif_reader) : Option (HRESULT × gif_reader) :=
  match s.m_pFrameComposeRT, s.m_pRawFrame with
  | some composed, some raw =>
    let start : Canvas := if s.m_uNextFrameIndex = 0 then ClearAll composed else composed
    let loopNumber : Nat :=
      if s.m_uNextFrameIndex = 0 then (s.m_uLoopNumber + 1) % 2 ^ 32 else s.m_uLoopNumber
    some (a.OverlayEndDraw,
          { s with
              m_uLoopNumber := loopNumber,
              m_pFrameComposeRT :=
                  some (EndDraw a.OverlayEndDraw composed (DrawBitmap raw s.m_framePosition start)) })
  | _, _ => none

/-- Lines 775-779: `m_uNextFrameIndex = (++m_uNextFrameIndex) % m_cFrames`. -/
def OverlayNextFrame_advance (p : HRESULT × gif_reader) : Option (HRESULT × gif_reader) :=
  if SUCCEEDED p.1 then
    if p.2.m_cFrames = 0 then none
    else some (p.1, { p.2 with
                        m_uNextFrameIndex := ((p.2.m_uNextFrameIndex + 1) % 2 ^ 32) % p.2.m_cFrames })
  else some p

/-- Lines 736-782. -/
def OverlayNextFrame (e : StepAnswers) (s : gif_reader) : Option (HRESULT × gif_reader) :=
  (GetRawFrame (e.decode s.m_uNextFrameIndex) s).bind fun p0 =>
  (if SUCCEEDED p0.1 ∧ p0.2.m_uFrameDisposal = DM_PREVIOUS then SaveComposedFrame e.surface p0.2
   else some p0).bind fun p1 =>
  (if SUCCEEDED p1.1 then OverlayNextFrame_draw e.surface p1.2 else some p1).bind fun p2 =>
  OverlayNextFrame_advance p2

/-- One pass of "compose one frame" (lines 855-859 and 866-870): dispose, then
overlay when the disposal succeeded. -/
def ComposeStep (e : StepAnswers) (s : gif_reader) : Option (HRESULT × gif_reader) :=
  (DisposeCurrentFrame e.surface s).bind fun p =>
  if SUCCEEDED p.1 then OverlayNextFrame e p.2 else some p

/-- Lines 864-871: the `while` loop; pass `k` asks the services their answers
`env k`.  `IsLastFrame` is declared in `gif_reader.h`, which is not part of the
sources at hand, and is a parameter.  The fuel bounds the number of passes;
`none` is also the result when it runs out. -/
def ComposeNextFrame_loop (IsLastFrame : gif_reader → Bool) (env : Nat → StepAnswers) :
    Nat → Nat → HRESULT × gif_reader → Option (HRESULT × gif_reader)
  | fuel, k, p =>
    if SUCCEEDED p.1 ∧ p.2.m_uFrameDelay = 0 ∧ IsLastFrame p.2 = false then
      match fuel with
      | 0 => none
      | fuel + 1 => (ComposeStep (env k) p.2).bind (ComposeNextFrame_loop IsLastFrame env fuel (k + 1))
    else some p

/-- Lines 848-874. -/
def ComposeNextFrame (IsLastFrame : gif_reader → Bool) (env : Nat → StepAnswers) (fuel : Nat)
    (s : gif_reader) : Option (HRESULT × gif_reader) :=
  if s.m_RenderTarget ∧ s.m_pFrameComposeRT.isSome then
    (ComposeStep (env 0) s).bind (ComposeNextFrame_loop IsLastFrame env fuel 1)
  else some (S_OK, s)

/-! ## Single-precision arithmetic of the pixel aspect ratio -/

/-- Rounding to the nearest integer, ties to even. -/
def roundHalfEven (q : ℚ) : ℤ :=
  if q - ⌊q⌋ < 1 / 2 then ⌊q⌋
  else if 1 / 2 < q - ⌊q⌋ then ⌊q⌋ + 1
  else if ⌊q⌋ % 2 = 0 then ⌊q⌋ else ⌊q⌋ + 1

/-- IEEE 754 binary32 rounding (round to nearest, ties to even) of a real result:
24 significant bits, the exponent of the leading bit not below -126 (subnormals).
Every `FLOAT` operation of the source is its real result rounded this way (single
precision evaluation, as with SSE arithmetic).  Overflow to infinity is absent:
every value rounded here lies below `2 ^ 24`. -/
def float32 (q : ℚ) : ℚ :=
  (roundHalfEven (q / 2 ^ (max (Int.log 2 |q|) (-126) - 23)) : ℚ) * 2 ^ (max (Int.log 2 |q|) (-126) - 23)

/-- The cast `static_cast<UINT>` of a non-negative `FLOAT`: truncation towards zero. -/
def truncUINT (q : ℚ) : Nat := ⌊q⌋₊ % 2 ^ 32

/-- Line 341: `(uPixelAspRatio + 15.f) / 64.f`, each operation rounded to `FLOAT`. -/
def pixelAspRatio (uPixelAspRatio : Nat) : ℚ :=
  float32 (float32 (float32 (uPixelAspRatio : ℚ) + 15) / 64)

/-- Lines 334-361: the size in pixels, `(m_cxGifImagePixel, m_cyGifImagePixel)`. -/
def imagePixelSize (cxGifImage cyGifImage uPixelAspRatio : Nat) : Nat × Nat :=
  if uPixelAspRatio ≠ 0 then
    if 1 < pixelAspRatio uPixelAspRatio then
      (cxGifImage, truncUINT (float32 (float32 (cyGifImage : ℚ) / pixelAspRatio uPixelAspRatio)))
    else
      (truncUINT (float32 (float32 (cxGifImage : ℚ) * pixelAspRatio uPixelAspRatio)), cyGifImage)
  else (cxGifImage, cyGifImage)

/-! ## Global metadata (lines 263-416, 588-665) -/

/-- What the decoder answers while the global metadata is read. -/
structure GlobalAnswers where
  GetFrameCount : HRESULT
  frameCount : Nat
  GetMetadataQueryReader : HRESULT
  GlobalColorTableFlag : MetadataAnswer
  BackgroundColorIndex : MetadataAnswer
  CreatePalette : HRESULT
  CopyPalette : HRESULT
  GetColors : HRESULT
  colors : List Nat
  Width : MetadataAnswer
  Height : MetadataAnswer
  PixelAspectRatio : MetadataAnswer
  Application : MetadataAnswer
  Data : MetadataAnswer
  deriving DecidableEq, Repr

/-- Lines 588-665: the result code and, on success, the background colour. -/
def GetBackgroundColor (g : GlobalAnswers) : HRESULT × Option ColorF :=
  let hr1 : HRESULT :=
    if SUCCEEDED g.GlobalColorTableFlag.hr then
      match g.GlobalColorTableFlag.value with
      | PROPVARIANT.VT_BOOL true => S_OK
      | _ => E_FAIL
    else g.GlobalColorTableFlag.hr
  let p2 : HRESULT × Nat :=
    if SUCCEEDED hr1 then
      if SUCCEEDED g.BackgroundColorIndex.hr then
        match g.BackgroundColorIndex.value with
        | PROPVARIANT.VT_UI1 v => (S_OK, v)
        | _ => (E_FAIL, 0)
      else (g.BackgroundColorIndex.hr, 0)
    else (hr1, 0)
  let hr3 := if SUCCEEDED p2.1 then g.CreatePalette else p2.1
  let hr4 := if SUCCEEDED hr3 then g.CopyPalette else hr3
  let hr5 := if SUCCEEDED hr4 then g.GetColors else hr4
  let hr6 := if SUCCEEDED hr5 then (if g.colors.length ≤ p2.2 then E_FAIL else S_OK) else hr5
  if SUCCEEDED hr6 then
    (hr6, some ⟨(g.colors.getD p2.2 0) % 2 ^ 24, (g.colors.getD p2.2 0) / 2 ^ 24 % 2 ^ 8⟩)
  else (hr6, none)

def NETSCAPE2_0 : List Nat := [78, 69, 84, 83, 67, 65, 80, 69, 50, 46, 48]
def ANIMEXTS1_0 : List Nat := [65, 78, 73, 77, 69, 88, 84, 83, 49, 46, 48]

/-- The macro `MAKEWORD(low, high)` of minwindef.h. -/
def MAKEWORD (low high : Nat) : Nat := low % 256 + 256 * (high % 256)

/-- Lines 375-381: the application block is present, an 11-byte vector, and one of
the two signatures. -/
def isLoopApplication (m : MetadataAnswer) : Bool :=
  SUCCEEDED m.hr &&
    (match m.value with
     | PROPVARIANT.VT_UI1_VECTOR l =>
         decide (l.length = 11) && (decide (l = NETSCAPE2_0) || decide (l = ANIMEXTS1_0))
     | _ => false)

/-- Lines 269-276: the result code after the frame count and the metadata reader. -/
def GetGlobalMetadata_openHr (g : GlobalAnswers) : HRESULT :=
  if SUCCEEDED g.GetFrameCount then g.GetMetadataQueryReader else g.GetFrameCount

/-- Lines 269-286: frame count, metadata reader, background colour (transparent
when `GetBackgroundColor` fails). -/
def GetGlobalMetadata_open (g : GlobalAnswers) (s : gif_reader) : HRESULT × gif_reader :=
  (GetGlobalMetadata_openHr g,
   { s with
       m_cFrames := if SUCCEEDED g.GetFrameCount then g.frameCount else s.m_cFrames,
       m_backgroundColor :=
         if SUCCEEDED (GetGlobalMetadata_openHr g) then
           match GetBackgroundColor g with
           | (_, some c) => c
           | (_, none) => ⟨0, 0⟩
         else s.m_backgroundColor })

/-- Lines 288-321 on the two numbers alone: the logical screen width and height. -/
def GetGlobalMetadata_screen (g : GlobalAnswers) (hr : HRESULT) (cx cy : Nat) : HRESULT × Nat × Nat :=
  let p1 : HRESULT × Nat × Nat :=
    if SUCCEEDED hr then
      match readUI2 g.Width with
      | (h, some v) => (h, v, cy)
      | (h, none) => (h, cx, cy)
    else (hr, cx, cy)
  if SUCCEEDED p1.1 then
    match readUI2 g.Height with
    | (h, some v) => (h, p1.2.1, v)
    | (h, none) => (h, p1.2.1, p1.2.2)
  else p1

/-- Lines 323-365 on the two numbers alone: the size in pixels, from the logical
size `cx`, `cy` and the pixel aspect ratio byte. -/
def GetGlobalMetadata_pixel (g : GlobalAnswers) (hr : HRESULT) (cx cy cxPixel cyPixel : Nat) :
    HRESULT × Nat × Nat :=
  if SUCCEEDED hr then
    if SUCCEEDED g.PixelAspectRatio.hr then
      match g.PixelAspectRatio.value with
      | PROPVARIANT.VT_UI1 r => (S_OK, imagePixelSize cx cy r)
      | _ => (E_FAIL, cxPixel, cyPixel)
    else (g.PixelAspectRatio.hr, cxPixel, cyPixel)
  else (hr, cxPixel, cyPixel)

/-- Lines 288-365: the logical screen size and the size in pixels. -/
def GetGlobalMetadata_size (g : GlobalAnswers) (p : HRESULT × gif_reader) : HRESULT × gif_reader :=
  let scr := GetGlobalMetadata_screen g p.1 p.2.m_cxGifImage p.2.m_cyGifImage
  let pix := GetGlobalMetadata_pixel g scr.1 scr.2.1 scr.2.2 p.2.m_cxGifImagePixel p.2.m_cyGifImagePixel
  (pix.1, { p.2 with
              m_cxGifImage := scr.2.1,
              m_cyGifImage := scr.2.2,
              m_cxGifImagePixel := pix.2.1,
              m_cyGifImagePixel := pix.2.2 })

/-- Lines 367-411 on the loop members alone: the result code, `m_uTotalLoopCount`
and `m_fHasLoop`. -/
def GetGlobalMetadata_loopInfo (g : GlobalAnswers) (hr : HRESULT) (total : Nat) (hasLoop : Bool) :
    HRESULT × Nat × Bool :=
  if SUCCEEDED hr then
    if isLoopApplication g.Application then
      if SUCCEEDED g.Data.hr then
        match g.Data.value with
        | PROPVARIANT.VT_UI1_VECTOR l =>
            if 4 ≤ l.length ∧ 0 < l.getD 0 0 ∧ l.getD 1 0 = 1 then
              (g.Data.hr, MAKEWORD (l.getD 2 0) (l.getD 3 0),
               if MAKEWORD (l.getD 2 0) (l.getD 3 0) ≠ 0 then true else hasLoop)
            else (g.Data.hr, total, hasLoop)
        | _ => (g.Data.hr, total, hasLoop)
      else (g.Data.hr, total, hasLoop)
    else (hr, total, hasLoop)
  else (hr, total, hasLoop)

/-- Lines 367-411: the looping information of the application extension. -/
def GetGlobalMetadata_loop (g : GlobalAnswers) (p : HRESULT × gif_reader) : HRESULT × gif_reader :=
  let li := GetGlobalMetadata_loopInfo g p.1 p.2.m_uTotalLoopCount p.2.m_fHasLoop
  (li.1, { p.2 with m_uTotalLoopCount := li.2.1, m_fHasLoop := li.2.2 })

/-- Lines 263-416. -/
def GetGlobalMetadata (g : GlobalAnswers) (s : gif_reader) : HRESULT × gif_reader :=
  GetGlobalMetadata_loop g (GetGlobalMetadata_size g (GetGlobalMetadata_open g s))

/-! ## StartCapture (lines 41-82, 191-261, 819-846) -/

/-- What the platform answers during `StartCapture`. -/
structure StartAnswers where
  D2D1CreateFactory : HRESULT
  CoCreateInstance : HRESULT
  CreateDecoderFromFilename : HRESULT
  global : GlobalAnswers
  CreateTexture2D : HRESULT
  QueryInterface : HRESULT
  CreateDxgiSurfaceRenderTarget : HRESULT
  CreateCompatibleRenderTarget : HRESULT
  deriving DecidableEq, Repr

/-- Lines 191-208. -/
def Initialize (a : StartAnswers) (s : gif_reader) : HRESULT × gif_reader :=
  let p1 : HRESULT × gif_reader :=
    if s.m_pD2DFactory then (S_OK, s)
    else (a.D2D1CreateFactory, { s with m_pD2DFactory := SUCCEEDED a.D2D1CreateFactory })
  if FAILED p1.1 then p1
  else if p1.2.m_pIWICFactory then p1
  else (a.CoCreateInstance, { p1.2 with m_pIWICFactory := SUCCEEDED a.CoCreateInstance })

/-- Lines 210-261. -/
def CreateDeviceResources (a : StartAnswers) (s : gif_reader) : Option (HRESULT × gif_reader) :=
  if s.m_RenderTarget then some (S_OK, s)
  else if s.m_Device = false then none
  else
    let s1 := { s with m_RenderTexture := SUCCEEDED a.CreateTexture2D }
    if FAILED a.CreateTexture2D then some (a.CreateTexture2D, s1)
    else if FAILED a.QueryInterface then some (a.QueryInterface, s1)
    else
      let s2 := { s1 with m_RenderTarget := SUCCEEDED a.CreateDxgiSurfaceRenderTarget }
      if FAILED a.CreateDxgiSurfaceRenderTarget then some (a.CreateDxgiSurfaceRenderTarget, s2)
      else
        some (a.CreateCompatibleRenderTarget,
              { s2 with m_pFrameComposeRT :=
                  if SUCCEEDED a.CreateCompatibleRenderTarget then some (fun _ _ => Pixel.transparent)
                  else none })

/-- Lines 819-846: the capture task is created and `S_OK` returned; the task runs
the production loop on its own thread. -/
def StartCaptureLoop (s : gif_reader) : HRESULT × gif_reader :=
  (S_OK, { s with m_captureLoopStarted := true })

/-- Lines 46-54: "Reset the states" and release the previous decoder. -/
def StartCapture_reset (s : gif_reader) : gif_reader :=
  { s with
      m_uNextFrameIndex := 0,
      m_uFrameDisposal := DM_NONE,
      m_uLoopNumber := 0,
      m_fHasLoop := false,
      m_pSavedFrame := none,
      m_pDecoder := false }

/-- Lines 55-64: create the decoder and, when that succeeded, read the global metadata. -/
def StartCapture_decode (a : StartAnswers) (s : gif_reader) : HRESULT × gif_reader :=
  if SUCCEEDED a.CreateDecoderFromFilename then GetGlobalMetadata a.global { s with m_pDecoder := true }
  else (a.CreateDecoderFromFilename, s)

/-- Lines 44-69: everything `StartCapture` does before it looks at the frame count. -/
def StartCapture_prepare (a : StartAnswers) (s : gif_reader) : Option (HRESULT × gif_reader) :=
  if FAILED (Initialize a s).1 then some (Initialize a s)
  else if (Initialize a s).2.m_pIWICFactory = false then none
  else if SUCCEEDED (StartCapture_decode a (StartCapture_reset (Initialize a s).2)).1 then
    CreateDeviceResources a (StartCapture_decode a (StartCapture_reset (Initialize a s).2)).2
  else some (StartCapture_decode a (StartCapture_reset (Initialize a s).2))

/-- Lines 41-82. -/
def StartCapture (a : StartAnswers) (s : gif_reader) : Option (HRESULT × gif_reader) :=
  (StartCapture_prepare a s).map fun p =>
    if SUCCEEDED p.1 then
      if 0 < p.2.m_cFrames then StartCaptureLoop p.2 else p
    else p

/-! ## The consumer's frame buffer (lines 97-179) -/

/-- The consumer-owned `FRAME_INFO`, declared in a header that is not part of the
sources at hand.  `PtrFrameBuffer` is `none` for `nullptr` and `some n` for a
buffer allocated with `n` bytes; `BufferSize` is an unsigned 32-bit `UINT`, which
`ResizeFrameBuffer` casts to `int` before it compares. -/
structure FRAME_INFO where
  PtrFrameBuffer : Option Nat
  BufferSize : Nat
  Stride : Int
  Width : Nat
  Height : Nat
  LastTimeStamp : Int
  deriving DecidableEq, Repr

/-- Lines 158-179; `allocates` tells whether `new (std::nothrow)` returns a buffer. -/
def ResizeFrameBuffer (allocates : Bool) (FrameInfo : FRAME_INFO) (bufferSize : Int) :
    HRESULT × FRAME_INFO :=
  if toInt32 FrameInfo.BufferSize < bufferSize then
    if allocates then
      (S_OK, { FrameInfo with
                 PtrFrameBuffer := some (toUInt32 bufferSize),
                 BufferSize := toUInt32 bufferSize })
    else (E_OUTOFMEMORY, { FrameInfo with PtrFrameBuffer := none, BufferSize := 0 })
  else (S_OK, FrameInfo)

def WAIT_OBJECT_0 : Nat := 0
def WAIT_TIMEOUT : Nat := 258

/-- The function `HRESULT_FROM_WIN32` of winerror.h. -/
def HRESULT_FROM_WIN32 (x : Nat) : HRESULT :=
  if toInt32 x ≤ 0 then toInt32 x else toInt32 (x % 65536 + 2147942400)

/-- What the platform answers during one `GetFrame`. -/
structure GetFrameAnswers where
  WaitForSingleObject : Nat
  GetLastError : Nat
  CreateTexture2D : HRESULT
  Map : HRESULT
  RowPitch : Nat
  allocates : Bool
  MFCopyImage : HRESULT
  QueryPerformanceCounter : Int
  deriving DecidableEq, Repr

/-- Lines 97-156.  The row copy itself is the platform's `MFCopyImage`; of it the
reader keeps the result code. -/
def GetFrame (a : GetFrameAnswers) (s : gif_reader) (pFrameInfo : FRAME_INFO) :
    Option (HRESULT × FRAME_INFO) :=
  if a.WaitForSingleObject = WAIT_OBJECT_0 then
    if s.m_RenderTexture = false ∨ s.m_Device = false then none
    else if FAILED a.CreateTexture2D then some (a.CreateTexture2D, pFrameInfo)
    else if FAILED a.Map then some (a.Map, pFrameInfo)
    else
      let hr := a.Map
      let stride := a.RowPitch
      let len := (s.m_cyGifImagePixel * stride) % 2 ^ 32
      let f1 := if FAILED hr then { pFrameInfo with PtrFrameBuffer := none } else pFrameInfo
      let p2 : HRESULT × FRAME_INFO :=
        if SUCCEEDED hr then ResizeFrameBuffer a.allocates f1 (toInt32 len) else (hr, f1)
      if SUCCEEDED p2.1 then
        some (a.MFCopyImage,
              { p2.2 with
                  Stride := toInt32 stride,
                  LastTimeStamp := a.QueryPerformanceCounter,
                  Width := s.m_cxGifImagePixel,
                  Height := s.m_cyGifImagePixel })
      else some p2
  else if a.WaitForSingleObject = WAIT_TIMEOUT then some (DXGI_ERROR_WAIT_TIMEOUT, pFrameInfo)
  else some (HRESULT_FROM_WIN32 a.GetLastError, pFrameInfo)

/-- The buffer after a run of `ResizeFrameBuffer` calls whose allocations succeed. -/
def resizeAll (FrameInfo : FRAME_INFO) (requests : List Int) : FRAME_INFO :=
  requests.foldl (fun f n => (ResizeFrameBuffer true f n).2) FrameInfo

/-! ## The production loop (lines 819-846) -/

/-- What the services answer during one iteration of the production loop: the
answers during `ComposeNextFrame` (by pass of its loop), `GetBitmap` on the
composed surface, `EndDraw` on the publish surface, and the timer wait. -/
structure IterationAnswers where
  compose : Nat → StepAnswers
  GetBitmap : HRESULT
  RenderEndDraw : HRESULT
  WaitFor : HRESULT

/-- The capture task as it runs: the reader, the content of the publish surface
`m_RenderTarget`, the result code of every `ComposeNextFrame` call made so far (in
order), the number of `SetEvent(m_NewFrameEvent)` calls, and whether the task has
left its loop. -/
structure CaptureTask where
  reader : gif_reader
  published : Canvas
  composeResults : List HRESULT
  newFrameEvents : Nat
  returned : Bool

/-- Lines 829-836: when `GetBitmap` succeeds, the publish surface is cleared and the
composed bitmap drawn on it in one transaction, whose result is not looked at. -/
def CaptureLoop_render (a : IterationAnswers) (composed published : Canvas) : Canvas :=
  if SUCCEEDED a.GetBitmap then
    EndDraw a.RenderEndDraw published (fun x y => Pixel.over (composed x y) (ClearAll published x y))
  else published

/-- Lines 827-843: one iteration of the `do ... while` loop.  The result of
`ComposeNextFrame` is recorded in `composeResults`; the source does not use it.
The task leaves the loop when the timer wait fails or when the loop condition
`!EndOfAnimation() && m_cFrames > 1` is false.  `EndOfAnimation`, like
`IsLastFrame`, is declared in `gif_reader.h` and is a parameter. -/
def CaptureLoop_iteration (IsLastFrame EndOfAnimation : gif_reader → Bool) (fuel : Nat)
    (a : IterationAnswers) (t : CaptureTask) : Option CaptureTask :=
  (ComposeNextFrame IsLastFrame a.compose fuel t.reader).bind fun p =>
    match p.2.m_pFrameComposeRT with
    | none => none
    | some composed =>
      if SUCCEEDED a.GetBitmap ∧ p.2.m_RenderTarget = false then none
      else
        some
          { reader := p.2
            published := CaptureLoop_render a composed t.published
            composeResults := t.composeResults ++ [p.1]
            newFrameEvents := t.newFrameEvents + 1
            returned := FAILED a.WaitFor || !(!EndOfAnimation p.2 && decide (1 < p.2.m_cFrames)) }

/-- Lines 825-843: the task after at most `n` iterations of the loop; iteration `k`
(from 0) gets the answers `answers k`.  A task that has left the loop stays as it
is. -/
def CaptureLoop (IsLastFrame EndOfAnimation : gif_reader → Bool) (fuel : Nat)
    (answers : Nat → IterationAnswers) : Nat → CaptureTask → Option CaptureTask
  | 0, t => some t
  | n + 1, t =>
    (CaptureLoop IsLastFrame EndOfAnimation fuel answers n t).bind fun t' =>
      if t'.returned then some t'
      else CaptureLoop_iteration IsLastFrame EndOfAnimation fuel (answers n) t'

/-- The capture task when `StartCaptureLoop` creates it. -/
def CaptureTask.start (s : gif_reader) (published : Canvas) : CaptureTask :=
  { reader := s
    published := published
    composeResults := []
    newFrameEvents := 0
    returned := false }

/-! ## A sample animation -/

/-- Modelled from the spec: `IsLastFrame` is declared in `gif_reader.h`, which is
not part of the sources at hand; the compose loop stops at "the last frame of the
sequence", that is when the next-frame index has wrapped to 0. -/
def IsLastFrame (s : gif_reader) : Bool := decide (s.m_uNextFrameIndex = 0)

/-- Modelled from the spec: `EndOfAnimation` is declared in `gif_reader.h`, which is
not part of the sources at hand; "the animation has looped past its end" when the
source declares a loop count, the last frame has been drawn and the loop number
has passed the total loop count. -/
def EndOfAnimation (s : gif_reader) : Bool :=
  s.m_fHasLoop && IsLastFrame s && decide (s.m_uTotalLoopCount < s.m_uLoopNumber)

/-- A 2x2 frame at the origin that every service call answers with success; its
Graphic Control Extension carries the given delay (in 10 ms units) and disposal. -/
def sampleFrame (delay disposal : Nat) : FrameAnswers :=
  { GetFrame := S_OK
    CreateFormatConverter := S_OK
    ConverterInitialize := S_OK
    CreateBitmapFromWicBitmap := S_OK
    bitmap := fun _ _ => ⟨0, 0, 255, 255⟩
    GetMetadataQueryReader := S_OK
    Left := ⟨S_OK, PROPVARIANT.VT_UI2 0⟩
    Top := ⟨S_OK, PROPVARIANT.VT_UI2 0⟩
    Width := ⟨S_OK, PROPVARIANT.VT_UI2 2⟩
    Height := ⟨S_OK, PROPVARIANT.VT_UI2 2⟩
    Delay := ⟨S_OK, PROPVARIANT.VT_UI2 delay⟩
    Disposal := ⟨S_OK, PROPVARIANT.VT_UI1 disposal⟩ }

/-- A drawing surface whose every call succeeds. -/
def sampleSurface : SurfaceAnswers :=
  { ClearEndDraw := S_OK
    RestoreGetBitmap := S_OK
    RestoreCopyFromBitmap := S_OK
    SaveGetBitmap := S_OK
    SaveCreateBitmap := S_OK
    SaveCopyFromBitmap := S_OK
    OverlayEndDraw := S_OK }

/-- A three-frame animation: frame 0 has delay field 0, frames 1 and 2 delay field 5;
every frame has disposal `DM_NONE`. -/
def sampleStep : StepAnswers :=
  { decode := fun i => if i = 0 then sampleFrame 0 DM_NONE else sampleFrame 5 DM_NONE
    surface := sampleSurface }

/-- An animation whose every frame declares disposal `DM_PREVIOUS`. -/
def samplePreviousStep : StepAnswers :=
  { decode := fun _ => sampleFrame 5 DM_PREVIOUS
    surface := sampleSurface }

/-- A surface that is opaque blue everywhere. -/
def blueCanvas : Canvas := fun _ _ => ⟨255, 0, 0, 255⟩

/-- The reader as `StartCapture` leaves it on a three-frame source, with a blue
composed surface. -/
def sampleReader : gif_reader :=
  { m_RenderTarget := true
    m_pFrameComposeRT := some blueCanvas
    m_pRawFrame := none
    m_pSavedFrame := none
    m_RenderTexture := true
    m_Device := true
    m_pD2DFactory := true
    m_pIWICFactory := true
    m_pDecoder := true
    m_uNextFrameIndex := 0
    m_uTotalLoopCount := 0
    m_uLoopNumber := 0
    m_fHasLoop := false
    m_uFrameDisposal := DM_NONE
    m_uFrameDelay := 0
    m_cFrames := 3
    m_cxGifImage := 4
    m_cyGifImage := 4
    m_cxGifImagePixel := 4
    m_cyGifImagePixel := 4
    m_framePosition := ⟨0, 0, 0, 0⟩
    m_backgroundColor := ⟨0, 0⟩
    m_captureLoopStarted := false }

/-- The reader before its first `StartCapture`: the device is set, nothing else. -/
def idleReader : gif_reader :=
  { sampleReader with
      m_RenderTarget := false
      m_pFrameComposeRT := none
      m_RenderTexture := false
      m_pD2DFactory := false
      m_pIWICFactory := false
      m_pDecoder := false
      m_cFrames := 0 }

/-- A decoder that reads a 4x4 logical screen with square pixels, no background
colour and no application extension, and reports the given frame count. -/
def sampleGlobal (frameCount : Nat) : GlobalAnswers :=
  { GetFrameCount := S_OK
    frameCount := frameCount
    GetMetadataQueryReader := S_OK
    GlobalColorTableFlag := ⟨E_FAIL, PROPVARIANT.VT_EMPTY⟩
    BackgroundColorIndex := ⟨E_FAIL, PROPVARIANT.VT_EMPTY⟩
    CreatePalette := S_OK
    CopyPalette := S_OK
    GetColors := S_OK
    colors := []
    Width := ⟨S_OK, PROPVARIANT.VT_UI2 4⟩
    Height := ⟨S_OK, PROPVARIANT.VT_UI2 4⟩
    PixelAspectRatio := ⟨S_OK, PROPVARIANT.VT_UI1 0⟩
    Application := ⟨E_FAIL, PROPVARIANT.VT_EMPTY⟩
    Data := ⟨E_FAIL, PROPVARIANT.VT_EMPTY⟩ }

/-- A platform whose every call succeeds, on a source that opens and reports the
given frame count. -/
def sampleStart (frameCount : Nat) : StartAnswers :=
  { D2D1CreateFactory := S_OK
    CoCreateInstance := S_OK
    CreateDecoderFromFilename := S_OK
    global := sampleGlobal frameCount
    CreateTexture2D := S_OK
    QueryInterface := S_OK
    CreateDxgiSurfaceRenderTarget := S_OK
    CreateCompatibleRenderTarget := S_OK }

/-- A source whose application extension carries the `NETSCAPE2.0` signature but
whose data sub-block cannot be read. -/
def unreadableLoopData : GlobalAnswers :=
  { sampleGlobal 3 with
      Application := ⟨S_OK, PROPVARIANT.VT_UI1_VECTOR NETSCAPE2_0⟩
      Data := ⟨E_FAIL, PROPVARIANT.VT_EMPTY⟩ }

/-- A consumer buffer of 64 bytes holding an earlier 4x4 frame. -/
def sampleFrameInfo : FRAME_INFO :=
  { PtrFrameBuffer := some 64
    BufferSize := 64
    Stride := 16
    Width := 4
    Height := 4
    LastTimeStamp := 0 }

/-- A `GetFrame` whose wait is signalled and whose every platform call succeeds,
with a row pitch of 16 bytes. -/
def sampleGetFrame : GetFrameAnswers :=
  { WaitForSingleObject := WAIT_OBJECT_0
    GetLastError := 0
    CreateTexture2D := S_OK
    Map := S_OK
    RowPitch := 16
    allocates := true
    MFCopyImage := S_OK
    QueryPerformanceCounter := 1 }

/-- An animation whose decoder cannot deliver any frame: `GetFrame` fails. -/
def failingStep : StepAnswers :=
  { decode := fun _ => { sampleFrame 5 DM_NONE with GetFrame := E_FAIL }
    surface := sampleSurface }

/-- A production loop on the sample animation whose decoder fails during the first
iteration only; the surface calls and the timer wait always succeed. -/
def transientFailure (k : Nat) : IterationAnswers :=
  { compose := fun _ => if k = 0 then failingStep else sampleStep
    GetBitmap := S_OK
    RenderEndDraw := S_OK
    WaitFor := S_OK }

/-- A production loop on the sample animation whose decoder fails in every
iteration; the surface calls and the timer wait always succeed. -/
def persistentFailure (_k : Nat) : IterationAnswers :=
  { compose := fun _ => failingStep
    GetBitmap := S_OK
    RenderEndDraw := S_OK
    WaitFor := S_OK }

/-- The sample reader while it displays a 2x2 frame with disposal `DM_BACKGROUND`
on the blue surface. -/
def backgroundReader : gif_reader :=
  { sampleReader with
      m_uNextFrameIndex := 1
      m_uFrameDisposal := DM_BACKGROUND
      m_framePosition := ⟨0, 0, 2, 2⟩ }

/-! ## Members kept across a frame read -/

/-- The members a frame read never writes. -/
def sameEngine (s t : gif_reader) : Prop :=
  t.m_RenderTarget = s.m_RenderTarget ∧ t.m_pFrameComposeRT = s.m_pFrameComposeRT ∧
  t.m_pSavedFrame = s.m_pSavedFrame ∧ t.m_uNextFrameIndex = s.m_uNextFrameIndex ∧
  t.m_cFrames = s.m_cFrames ∧ t.m_uLoopNumber = s.m_uLoopNumber

/-- The members the metadata steps of a frame read never write. -/
def sameSurfaces (s t : gif_reader) : Prop :=
  sameEngine s t ∧ t.m_pRawFrame = s.m_pRawFrame

/-! # Lemmas -/

/-! ## Lemmas on `GetRawFrame` -/

theorem SUCCEEDED_S_OK : SUCCEEDED S_OK = true := by decide

theorem SUCCEEDED_E_FAIL : SUCCEEDED E_FAIL = false := by decide

theorem FAILED_eq_not (hr : HRESULT) : FAILED hr = !SUCCEEDED hr := by
  unfold FAILED SUCCEEDED
  by_cases h : 0 ≤ hr
  · simp [h]
  · simp [h, not_le.mp h]

theorem normalize_ge (q : HRESULT × Nat)
    (h : SUCCEEDED (if SUCCEEDED q.1 = true then (if q.2 < 20 then (q.1, 90) else q) else q).1 = true) :
    20 ≤ (if SUCCEEDED q.1 = true then (if q.2 < 20 then (q.1, 90) else q) else q).2 := by
  split_ifs at h ⊢ with h1 h2
  · simp
  · omega
  · exact absurd h h1

/-- A success of the delay step leaves a delay of at least 20 ms. -/
theorem GetRawFrame_delayValue_ge (m : MetadataAnswer) (hr : HRESULT) (old : Nat)
    (h : SUCCEEDED (GetRawFrame_delayValue m hr old).1 = true) :
    20 ≤ (GetRawFrame_delayValue m hr old).2 :=
  normalize_ge _ h

theorem GetRawFrame_delay_fst (resp : FrameAnswers) (p : HRESULT × gif_reader)
    (h : SUCCEEDED (GetRawFrame_delay resp p).1 = true) :
    SUCCEEDED p.1 = true ∧ 20 ≤ (GetRawFrame_delay resp p).2.m_uFrameDelay := by
  unfold GetRawFrame_delay at h ⊢
  by_cases h0 : SUCCEEDED p.1 = true
  · simp only [h0, if_true] at h ⊢
    exact ⟨trivial, GetRawFrame_delayValue_ge _ _ _ h⟩
  · rw [if_neg h0] at h
    exact absurd h h0

theorem GetRawFrame_disposal_fst (resp : FrameAnswers) (p : HRESULT × gif_reader)
    (h : SUCCEEDED (GetRawFrame_disposal resp p).1 = true) : SUCCEEDED p.1 = true := by
  unfold GetRawFrame_disposal at h
  by_cases h0 : SUCCEEDED p.1 = true
  · exact h0
  · rw [if_neg h0] at h
    exact absurd h h0

theorem GetRawFrame_rect_failed (resp : FrameAnswers) (hr : HRESULT) (rc : D2D1_RECT_F)
    (h : ¬ SUCCEEDED hr = true) : GetRawFrame_rect resp hr rc = (hr, rc) := by
  simp [GetRawFrame_rect, h]

theorem GetRawFrame_geometry_same (resp : FrameAnswers) (p : HRESULT × gif_reader) :
    sameSurfaces p.2 (GetRawFrame_geometry resp p).2 ∧
    (GetRawFrame_geometry resp p).2.m_uFrameDelay = p.2.m_uFrameDelay ∧
    (SUCCEEDED (GetRawFrame_geometry resp p).1 = true → SUCCEEDED p.1 = true) := by
  refine ⟨⟨⟨rfl, rfl, rfl, rfl, rfl, rfl⟩, rfl⟩, rfl, ?_⟩
  intro h
  by_contra h0
  simp only [GetRawFrame_geometry, GetRawFrame_rect_failed resp p.1 _ h0] at h
  exact h0 h

theorem GetRawFrame_delay_same (resp : FrameAnswers) (p : HRESULT × gif_reader) :
    sameSurfaces p.2 (GetRawFrame_delay resp p).2 := by
  unfold GetRawFrame_delay
  split_ifs <;> exact ⟨⟨rfl, rfl, rfl, rfl, rfl, rfl⟩, rfl⟩

theorem GetRawFrame_disposal_same (resp : FrameAnswers) (p : HRESULT × gif_reader) :
    sameSurfaces p.2 (GetRawFrame_disposal resp p).2 ∧
    (GetRawFrame_disposal resp p).2.m_uFrameDelay = p.2.m_uFrameDelay := by
  unfold GetRawFrame_disposal
  split_ifs <;> exact ⟨⟨⟨rfl, rfl, rfl, rfl, rfl, rfl⟩, rfl⟩, rfl⟩

theorem GetRawFrame_decode_spec (resp : FrameAnswers) (s : gif_reader) (p : HRESULT × gif_reader)
    (h : GetRawFrame_decode resp s = some p) :
    sameEngine s p.2 ∧ (SUCCEEDED p.1 = true → p.2.m_pRawFrame = some resp.bitmap) := by
  unfold GetRawFrame_decode at h
  by_cases h1 : SUCCEEDED (GetRawFrame_convert resp) = true
  · rw [if_pos h1] at h
    by_cases h2 : s.m_RenderTarget = true
    · rw [if_pos h2, Option.some.injEq] at h
      subst h
      refine ⟨⟨rfl, rfl, rfl, rfl, rfl, rfl⟩, fun h3 => ?_⟩
      by_cases h4 : SUCCEEDED resp.CreateBitmapFromWicBitmap = true
      · simp only [if_pos h4]
      · simp only [if_neg h4] at h3
        exact absurd h3 h4
    · rw [if_neg h2] at h
      exact absurd h (by simp)
  · rw [if_neg h1, Option.some.injEq] at h
    subst h
    exact ⟨⟨rfl, rfl, rfl, rfl, rfl, rfl⟩, fun h3 => absurd h3 h1⟩

/-- What every completed `GetRawFrame` guarantees: the engine members are kept,
and a success leaves a decoded bitmap and a delay of at least 20 ms. -/
theorem GetRawFrame_spec (resp : FrameAnswers) (s : gif_reader) (p : HRESULT × gif_reader)
    (h : GetRawFrame resp s = some p) :
    sameEngine s p.2 ∧
    (SUCCEEDED p.1 = true → 20 ≤ p.2.m_uFrameDelay ∧ p.2.m_pRawFrame = some resp.bitmap) := by
  unfold GetRawFrame at h
  rw [Option.map_eq_some'] at h
  obtain ⟨p0, hdec, hp⟩ := h
  subst hp
  obtain ⟨e0, r0⟩ := GetRawFrame_decode_spec resp s p0 hdec
  obtain ⟨⟨e1, r1⟩, -, f1⟩ := GetRawFrame_geometry_same resp p0
  obtain ⟨e2, r2⟩ := GetRawFrame_delay_same resp (GetRawFrame_geometry resp p0)
  obtain ⟨⟨e3, r3⟩, d3⟩ := GetRawFrame_disposal_same resp (GetRawFrame_delay resp (GetRawFrame_geometry resp p0))
  refine ⟨?_, fun hs => ?_⟩
  · unfold sameEngine at *
    refine ⟨?_, ?_, ?_, ?_, ?_, ?_⟩
    · rw [e3.1, e2.1, e1.1, e0.1]
    · rw [e3.2.1, e2.2.1, e1.2.1, e0.2.1]
    · rw [e3.2.2.1, e2.2.2.1, e1.2.2.1, e0.2.2.1]
    · rw [e3.2.2.2.1, e2.2.2.2.1, e1.2.2.2.1, e0.2.2.2.1]
    · rw [e3.2.2.2.2.1, e2.2.2.2.2.1, e1.2.2.2.2.1, e0.2.2.2.2.1]
    · rw [e3.2.2.2.2.2, e2.2.2.2.2.2, e1.2.2.2.2.2, e0.2.2.2.2.2]
  · have h2 := GetRawFrame_disposal_fst resp _ hs
    obtain ⟨h1, hd⟩ := GetRawFrame_delay_fst resp _ h2
    exact ⟨d3 ▸ hd, by rw [r3, r2, r1]; exact r0 (f1 h1)⟩


theorem GetRawFrame_isSome (resp : FrameAnswers) (s : gif_reader) (h : s.m_RenderTarget = true) :
    ∃ p, GetRawFrame resp s = some p := by
  unfold GetRawFrame GetRawFrame_decode
  by_cases h1 : SUCCEEDED (GetRawFrame_convert resp) = true
  · simp [h1, h]
  · simp [h1]

/-! ## Lemmas on the compose engine -/

theorem copy_after_success (hrc : HRESULT) (composed : Canvas) (p1 : HRESULT × Option Canvas)
    (h : SUCCEEDED (if SUCCEEDED p1.1 = true then
          (hrc, if SUCCEEDED hrc = true then some composed else p1.2) else p1).1 = true) :
    (if SUCCEEDED p1.1 = true then
          (hrc, if SUCCEEDED hrc = true then some composed else p1.2) else p1).2 = some composed := by
  by_cases h1 : SUCCEEDED p1.1 = true
  · rw [if_pos h1] at h ⊢
    change SUCCEEDED hrc = true at h
    simp only [if_pos h]
  · rw [if_neg h1] at h
    exact absurd h h1

theorem SaveComposedFrame_copy_saved (a : SurfaceAnswers) (composed : Canvas) (saved : Option Canvas)
    (h : SUCCEEDED (SaveComposedFrame_copy a composed saved).1 = true) :
    (SaveComposedFrame_copy a composed saved).2 = some composed :=
  copy_after_success _ _ _ h

theorem SaveComposedFrame_spec (a : SurfaceAnswers) (s : gif_reader) (p : HRESULT × gif_reader)
    (h : SaveComposedFrame a s = some p) :
    p.2 = { s with m_pSavedFrame := p.2.m_pSavedFrame } ∧
    (SUCCEEDED p.1 = true → p.2.m_pSavedFrame = s.m_pFrameComposeRT) := by
  unfold SaveComposedFrame at h
  rcases Option.eq_none_or_eq_some s.m_pFrameComposeRT with hc | ⟨composed, hc⟩
  · simp [hc] at h
  · simp only [hc] at h
    replace h := Option.some.inj h
    subst h
    exact ⟨by rw [← hc], fun h2 => by rw [hc]; exact SaveComposedFrame_copy_saved _ _ _ h2⟩

theorem SaveComposedFrame_isSome (a : SurfaceAnswers) (s : gif_reader) (c : Canvas)
    (h : s.m_pFrameComposeRT = some c) : ∃ p, SaveComposedFrame a s = some p := by
  unfold SaveComposedFrame
  rw [h]
  exact ⟨_, rfl⟩

theorem RestoreSavedFrame_spec (a : SurfaceAnswers) (s : gif_reader) (p : HRESULT × gif_reader)
    (h : RestoreSavedFrame a s = some p) :
    p.2 = { s with m_pFrameComposeRT := p.2.m_pFrameComposeRT } ∧
    p.2.m_pFrameComposeRT.isSome = s.m_pFrameComposeRT.isSome := by
  unfold RestoreSavedFrame at h
  rcases Option.eq_none_or_eq_some s.m_pSavedFrame with hs | ⟨saved, hs⟩
  · simp only [hs] at h
    replace h := Option.some.inj h
    subst h
    exact ⟨rfl, rfl⟩
  · rcases Option.eq_none_or_eq_some s.m_pFrameComposeRT with hc | ⟨composed, hc⟩
    · simp [hs, hc] at h
    · simp only [hs, hc] at h
      replace h := Option.some.inj h
      subst h
      exact ⟨by rw [← hs], by simp [hc]⟩

theorem ClearCurrentFrameArea_spec (a : SurfaceAnswers) (s : gif_reader) (p : HRESULT × gif_reader)
    (h : ClearCurrentFrameArea a s = some p) :
    p.2 = { s with m_pFrameComposeRT := p.2.m_pFrameComposeRT } ∧
    p.2.m_pFrameComposeRT.isSome = s.m_pFrameComposeRT.isSome := by
  unfold ClearCurrentFrameArea at h
  rcases Option.eq_none_or_eq_some s.m_pFrameComposeRT with hc | ⟨composed, hc⟩
  · simp [hc] at h
  · simp only [hc] at h
    replace h := Option.some.inj h
    subst h
    exact ⟨rfl, by simp [hc]⟩

theorem DisposeCurrentFrame_spec (a : SurfaceAnswers) (s : gif_reader) (p : HRESULT × gif_reader)
    (h : DisposeCurrentFrame a s = some p) :
    p.2 = { s with m_pFrameComposeRT := p.2.m_pFrameComposeRT } ∧
    p.2.m_pFrameComposeRT.isSome = s.m_pFrameComposeRT.isSome := by
  unfold DisposeCurrentFrame at h
  split_ifs at h with h1 h2 h3
  · replace h := Option.some.inj h
    subst h
    exact ⟨rfl, rfl⟩
  · exact ClearCurrentFrameArea_spec a s p h
  · exact RestoreSavedFrame_spec a s p h
  · replace h := Option.some.inj h
    subst h
    exact ⟨rfl, rfl⟩

theorem DisposeCurrentFrame_isSome (a : SurfaceAnswers) (s : gif_reader) (c : Canvas)
    (h : s.m_pFrameComposeRT = some c) : ∃ p, DisposeCurrentFrame a s = some p := by
  unfold DisposeCurrentFrame ClearCurrentFrameArea RestoreSavedFrame
  rw [h]
  split_ifs
  · exact ⟨_, rfl⟩
  · exact ⟨_, rfl⟩
  · cases s.m_pSavedFrame <;> exact ⟨_, rfl⟩
  · exact ⟨_, rfl⟩


theorem OverlayNextFrame_stages (e : StepAnswers) (s : gif_reader) (p : HRESULT × gif_reader)
    (h : OverlayNextFrame e s = some p) :
    ∃ p0 p1 p2, GetRawFrame (e.decode s.m_uNextFrameIndex) s = some p0 ∧
      (if SUCCEEDED p0.1 = true ∧ p0.2.m_uFrameDisposal = DM_PREVIOUS then SaveComposedFrame e.surface p0.2
        else some p0) = some p1 ∧
      (if SUCCEEDED p1.1 = true then OverlayNextFrame_draw e.surface p1.2 else some p1) = some p2 ∧
      OverlayNextFrame_advance p2 = some p := by
  unfold OverlayNextFrame at h
  simp only [Option.bind_eq_some] at h
  obtain ⟨p0, h0, p1, h1, p2, h2, h3⟩ := h
  exact ⟨p0, p1, p2, h0, h1, h2, h3⟩

theorem saveStage_spec (a : SurfaceAnswers) (p0 p1 : HRESULT × gif_reader)
    (h : (if SUCCEEDED p0.1 = true ∧ p0.2.m_uFrameDisposal = DM_PREVIOUS then SaveComposedFrame a p0.2
        else some p0) = some p1) :
    p1.2 = { p0.2 with m_pSavedFrame := p1.2.m_pSavedFrame } ∧
    (SUCCEEDED p1.1 = true → SUCCEEDED p0.1 = true) ∧
    (SUCCEEDED p1.1 = true → p0.2.m_uFrameDisposal = DM_PREVIOUS →
      p1.2.m_pSavedFrame = p0.2.m_pFrameComposeRT) := by
  by_cases hc : SUCCEEDED p0.1 = true ∧ p0.2.m_uFrameDisposal = DM_PREVIOUS
  · rw [if_pos hc] at h
    obtain ⟨hf, hs⟩ := SaveComposedFrame_spec a p0.2 p1 h
    exact ⟨hf, fun _ => hc.1, fun h1 _ => hs h1⟩
  · rw [if_neg hc] at h
    replace h := Option.some.inj h
    subst h
    exact ⟨rfl, fun h1 => h1, fun h1 h2 => absurd ⟨h1, h2⟩ hc⟩

theorem OverlayNextFrame_draw_spec (a : SurfaceAnswers) (s : gif_reader) (p : HRESULT × gif_reader)
    (h : OverlayNextFrame_draw a s = some p) :
    p.2 = { s with m_uLoopNumber := p.2.m_uLoopNumber, m_pFrameComposeRT := p.2.m_pFrameComposeRT } ∧
    p.2.m_pFrameComposeRT.isSome = s.m_pFrameComposeRT.isSome := by
  unfold OverlayNextFrame_draw at h
  rcases Option.eq_none_or_eq_some s.m_pFrameComposeRT with hc | ⟨composed, hc⟩
  · simp [hc] at h
  · rcases Option.eq_none_or_eq_some s.m_pRawFrame with hr | ⟨raw, hr⟩
    · simp [hc, hr] at h
    · simp only [hc, hr] at h
      replace h := Option.some.inj h
      subst h
      exact ⟨by rw [← hr], by simp [hc]⟩

theorem drawStage_spec (a : SurfaceAnswers) (p1 p2 : HRESULT × gif_reader)
    (h : (if SUCCEEDED p1.1 = true then OverlayNextFrame_draw a p1.2 else some p1) = some p2) :
    p2.2 = { p1.2 with m_uLoopNumber := p2.2.m_uLoopNumber, m_pFrameComposeRT := p2.2.m_pFrameComposeRT } ∧
    p2.2.m_pFrameComposeRT.isSome = p1.2.m_pFrameComposeRT.isSome ∧
    (SUCCEEDED p2.1 = true → SUCCEEDED p1.1 = true) := by
  by_cases hc : SUCCEEDED p1.1 = true
  · rw [if_pos hc] at h
    obtain ⟨hf, hs⟩ := OverlayNextFrame_draw_spec a p1.2 p2 h
    exact ⟨hf, hs, fun _ => hc⟩
  · rw [if_neg hc] at h
    replace h := Option.some.inj h
    subst h
    exact ⟨rfl, rfl, fun h1 => h1⟩

theorem OverlayNextFrame_advance_spec (p2 p : HRESULT × gif_reader)
    (h : OverlayNextFrame_advance p2 = some p) :
    p.1 = p2.1 ∧ p.2 = { p2.2 with m_uNextFrameIndex := p.2.m_uNextFrameIndex } ∧
    (SUCCEEDED p.1 = true →
      p.2.m_uNextFrameIndex = ((p2.2.m_uNextFrameIndex + 1) % 2 ^ 32) % p2.2.m_cFrames ∧
      p2.2.m_cFrames ≠ 0) ∧
    (¬ SUCCEEDED p.1 = true → p.2.m_uNextFrameIndex = p2.2.m_uNextFrameIndex) := by
  unfold OverlayNextFrame_advance at h
  by_cases hc : SUCCEEDED p2.1 = true
  · rw [if_pos hc] at h
    by_cases hn : p2.2.m_cFrames = 0
    · rw [if_pos hn] at h
      exact absurd h (by simp)
    · rw [if_neg hn] at h
      replace h := Option.some.inj h
      subst h
      exact ⟨rfl, rfl, fun _ => ⟨rfl, hn⟩, fun h1 => absurd hc h1⟩
  · rw [if_neg hc] at h
    replace h := Option.some.inj h
    subst h
    exact ⟨rfl, rfl, fun h1 => absurd h1 hc, fun _ => rfl⟩

/-- What every completed `OverlayNextFrame` guarantees. -/
theorem OverlayNextFrame_spec (e : StepAnswers) (s : gif_reader) (p : HRESULT × gif_reader)
    (h : OverlayNextFrame e s = some p) :
    p.2.m_cFrames = s.m_cFrames ∧ p.2.m_RenderTarget = s.m_RenderTarget ∧
    p.2.m_pFrameComposeRT.isSome = s.m_pFrameComposeRT.isSome ∧
    (SUCCEEDED p.1 = true →
      p.2.m_uNextFrameIndex = ((s.m_uNextFrameIndex + 1) % 2 ^ 32) % s.m_cFrames ∧
      20 ≤ p.2.m_uFrameDelay ∧ s.m_cFrames ≠ 0) ∧
    (¬ SUCCEEDED p.1 = true → p.2.m_uNextFrameIndex = s.m_uNextFrameIndex) := by
  obtain ⟨p0, p1, p2, h0, h1, h2, h3⟩ := OverlayNextFrame_stages e s p h
  obtain ⟨⟨g1, g2, g3, g4, g5, g6⟩, gs⟩ := GetRawFrame_spec _ s p0 h0
  obtain ⟨s1, s2, -⟩ := saveStage_spec _ p0 p1 h1
  obtain ⟨d1, d2, d3⟩ := drawStage_spec _ p1 p2 h2
  obtain ⟨a1, a2, a3, a4⟩ := OverlayNextFrame_advance_spec p2 p h3
  have idx2 : p2.2.m_uNextFrameIndex = s.m_uNextFrameIndex := by
    rw [d1, s1]; exact g4
  have cf2 : p2.2.m_cFrames = s.m_cFrames := by
    rw [d1, s1]; exact g5
  have dl2 : p2.2.m_uFrameDelay = p0.2.m_uFrameDelay := by
    rw [d1, s1]
  refine ⟨?_, ?_, ?_, fun hs => ?_, fun hf => ?_⟩
  · rw [a2]; exact cf2
  · rw [a2, d1, s1]; exact g1
  · rw [a2]
    show p2.2.m_pFrameComposeRT.isSome = _
    rw [d2, s1]
    show p0.2.m_pFrameComposeRT.isSome = _
    rw [g2]
  · obtain ⟨i1, i2⟩ := a3 hs
    rw [idx2, cf2] at i1
    rw [cf2] at i2
    refine ⟨i1, ?_, i2⟩
    rw [a2]
    show 20 ≤ p2.2.m_uFrameDelay
    rw [dl2]
    exact (gs (s2 (d3 (a1 ▸ hs)))).1
  · rw [a4 hf, idx2]


theorem OverlayNextFrame_isSome (e : StepAnswers) (s : gif_reader) (c : Canvas)
    (hrt : s.m_RenderTarget = true) (hc : s.m_pFrameComposeRT = some c) (hn : s.m_cFrames ≠ 0) :
    ∃ p, OverlayNextFrame e s = some p := by
  obtain ⟨p0, h0⟩ := GetRawFrame_isSome (e.decode s.m_uNextFrameIndex) s hrt
  obtain ⟨⟨-, g2, -, -, g5, -⟩, gs⟩ := GetRawFrame_spec _ s p0 h0
  have hc0 : p0.2.m_pFrameComposeRT = some c := by rw [g2, hc]
  obtain ⟨p1, h1⟩ : ∃ p1, (if SUCCEEDED p0.1 = true ∧ p0.2.m_uFrameDisposal = DM_PREVIOUS then
      SaveComposedFrame e.surface p0.2 else some p0) = some p1 := by
    split_ifs
    · exact SaveComposedFrame_isSome _ _ c hc0
    · exact ⟨_, rfl⟩
  obtain ⟨s1, s2, -⟩ := saveStage_spec _ p0 p1 h1
  have hc1 : p1.2.m_pFrameComposeRT = some c := by rw [s1]; exact hc0
  obtain ⟨p2, h2⟩ : ∃ p2, (if SUCCEEDED p1.1 = true then OverlayNextFrame_draw e.surface p1.2
      else some p1) = some p2 := by
    by_cases hs : SUCCEEDED p1.1 = true
    · rw [if_pos hs]
      have hr1 : p1.2.m_pRawFrame = some (e.decode s.m_uNextFrameIndex).bitmap := by
        rw [s1]; exact (gs (s2 hs)).2
      unfold OverlayNextFrame_draw
      rw [hc1, hr1]
      exact ⟨_, rfl⟩
    · rw [if_neg hs]
      exact ⟨_, rfl⟩
  obtain ⟨d1, -, -⟩ := drawStage_spec _ p1 p2 h2
  have cf2 : p2.2.m_cFrames ≠ 0 := by
    rw [d1, s1]
    show p0.2.m_cFrames ≠ 0
    rw [g5]; exact hn
  obtain ⟨p, h3⟩ : ∃ p, OverlayNextFrame_advance p2 = some p := by
    unfold OverlayNextFrame_advance
    split_ifs
    · exact ⟨_, rfl⟩
    · exact ⟨_, rfl⟩
  refine ⟨p, ?_⟩
  unfold OverlayNextFrame
  rw [h0, Option.some_bind, h1, Option.some_bind, h2, Option.some_bind, h3]

/-- What every completed dispose-then-overlay step guarantees. -/
theorem ComposeStep_spec (e : StepAnswers) (s : gif_reader) (p : HRESULT × gif_reader)
    (h : ComposeStep e s = some p) :
    p.2.m_cFrames = s.m_cFrames ∧ p.2.m_RenderTarget = s.m_RenderTarget ∧
    p.2.m_pFrameComposeRT.isSome = s.m_pFrameComposeRT.isSome ∧
    (SUCCEEDED p.1 = true →
      p.2.m_uNextFrameIndex = ((s.m_uNextFrameIndex + 1) % 2 ^ 32) % s.m_cFrames ∧
      20 ≤ p.2.m_uFrameDelay ∧ s.m_cFrames ≠ 0) ∧
    (¬ SUCCEEDED p.1 = true → p.2.m_uNextFrameIndex = s.m_uNextFrameIndex) := by
  unfold ComposeStep at h
  rw [Option.bind_eq_some] at h
  obtain ⟨q, hq, h⟩ := h
  obtain ⟨q1, q2⟩ := DisposeCurrentFrame_spec _ s q hq
  by_cases hs : SUCCEEDED q.1 = true
  · rw [if_pos hs] at h
    obtain ⟨o1, o2, o3, o4, o5⟩ := OverlayNextFrame_spec e q.2 p h
    have e1 : q.2.m_cFrames = s.m_cFrames := by rw [q1]
    have e2 : q.2.m_uNextFrameIndex = s.m_uNextFrameIndex := by rw [q1]
    have e3 : q.2.m_RenderTarget = s.m_RenderTarget := by rw [q1]
    rw [e1, e2] at o4
    rw [e2] at o5
    exact ⟨o1.trans e1, o2.trans e3, o3.trans q2, o4, o5⟩
  · rw [if_neg hs] at h
    replace h := Option.some.inj h
    subst h
    refine ⟨by rw [q1], by rw [q1], q2, fun h1 => absurd h1 hs, fun _ => by rw [q1]⟩

theorem ComposeStep_isSome (e : StepAnswers) (s : gif_reader) (c : Canvas)
    (hrt : s.m_RenderTarget = true) (hc : s.m_pFrameComposeRT = some c) (hn : s.m_cFrames ≠ 0) :
    ∃ p, ComposeStep e s = some p := by
  obtain ⟨q, hq⟩ := DisposeCurrentFrame_isSome e.surface s c hc
  obtain ⟨q1, q2⟩ := DisposeCurrentFrame_spec _ s q hq
  unfold ComposeStep
  rw [hq, Option.some_bind]
  by_cases hs : SUCCEEDED q.1 = true
  · rw [if_pos hs]
    have hsome : q.2.m_pFrameComposeRT.isSome = true := by rw [q2, hc]; rfl
    obtain ⟨c', hc'⟩ := Option.isSome_iff_exists.mp hsome
    exact OverlayNextFrame_isSome e q.2 c' (by rw [q1]; exact hrt) hc' (by rw [q1]; exact hn)
  · rw [if_neg hs]
    exact ⟨_, rfl⟩

/-- The `while` loop of `ComposeNextFrame` exits at once, whatever the fuel, when
it is entered with a failure or with a non-zero frame delay. -/
theorem ComposeNextFrame_loop_exit (IsLastFrame : gif_reader → Bool) (env : Nat → StepAnswers)
    (fuel k : Nat) (p : HRESULT × gif_reader)
    (h : SUCCEEDED p.1 = true → p.2.m_uFrameDelay ≠ 0) :
    ComposeNextFrame_loop IsLastFrame env fuel k p = some p := by
  unfold ComposeNextFrame_loop
  rw [if_neg]
  rintro ⟨h1, h2, -⟩
  exact h h1 h2

/-- The loop of `ComposeNextFrame` never runs a second pass: the call is one
dispose-then-overlay step, for every fuel and every `IsLastFrame`. -/
theorem ComposeNextFrame_eq_step (IsLastFrame : gif_reader → Bool) (env : Nat → StepAnswers)
    (fuel : Nat) (s : gif_reader)
    (h : s.m_RenderTarget = true ∧ s.m_pFrameComposeRT.isSome = true) :
    ComposeNextFrame IsLastFrame env fuel s = ComposeStep (env 0) s := by
  unfold ComposeNextFrame
  rw [if_pos h]
  cases hstep : ComposeStep (env 0) s with
  | none => rfl
  | some p =>
    rw [Option.some_bind]
    apply ComposeNextFrame_loop_exit
    intro hs
    have := ((ComposeStep_spec _ s p hstep).2.2.2.1 hs).2.1
    omega

/-! ## Lemmas on the global metadata and `StartCapture` -/

theorem GetGlobalMetadata_screen_fst (g : GlobalAnswers) (hr : HRESULT) (cx cy : Nat)
    (h : SUCCEEDED (GetGlobalMetadata_screen g hr cx cy).1 = true) : SUCCEEDED hr = true := by
  by_contra h0
  simp [GetGlobalMetadata_screen, h0] at h

theorem GetGlobalMetadata_pixel_fst (g : GlobalAnswers) (hr : HRESULT) (cx cy cxp cyp : Nat)
    (h : SUCCEEDED (GetGlobalMetadata_pixel g hr cx cy cxp cyp).1 = true) : SUCCEEDED hr = true := by
  by_contra h0
  simp [GetGlobalMetadata_pixel, h0] at h

theorem GetGlobalMetadata_loopInfo_fst (g : GlobalAnswers) (hr : HRESULT) (total : Nat) (hasLoop : Bool)
    (h : SUCCEEDED (GetGlobalMetadata_loopInfo g hr total hasLoop).1 = true) : SUCCEEDED hr = true := by
  by_contra h0
  simp [GetGlobalMetadata_loopInfo, h0] at h

theorem GetGlobalMetadata_openHr_fst (g : GlobalAnswers)
    (h : SUCCEEDED (GetGlobalMetadata_openHr g) = true) : SUCCEEDED g.GetFrameCount = true := by
  by_contra h0
  simp [GetGlobalMetadata_openHr, h0] at h

/-- The members `GetGlobalMetadata` keeps, and the frame count a success leaves. -/
theorem GetGlobalMetadata_spec (g : GlobalAnswers) (s : gif_reader) :
    (GetGlobalMetadata g s).2.m_uNextFrameIndex = s.m_uNextFrameIndex ∧
    (GetGlobalMetadata g s).2.m_captureLoopStarted = s.m_captureLoopStarted ∧
    (SUCCEEDED (GetGlobalMetadata g s).1 = true → (GetGlobalMetadata g s).2.m_cFrames = g.frameCount) ∧
    (SUCCEEDED g.GetFrameCount = true → (GetGlobalMetadata g s).2.m_cFrames = g.frameCount) := by
  refine ⟨rfl, rfl, fun h => ?_, fun h => ?_⟩
  · have h1 := GetGlobalMetadata_loopInfo_fst _ _ _ _ h
    have h2 := GetGlobalMetadata_pixel_fst _ _ _ _ _ _ h1
    have h3 := GetGlobalMetadata_screen_fst _ _ _ _ h2
    have h4 := GetGlobalMetadata_openHr_fst _ h3
    show (if SUCCEEDED g.GetFrameCount = true then g.frameCount else s.m_cFrames) = _
    rw [if_pos h4]
  · show (if SUCCEEDED g.GetFrameCount = true then g.frameCount else s.m_cFrames) = _
    rw [if_pos h]

theorem Initialize_same (a : StartAnswers) (s : gif_reader) :
    (Initialize a s).2 = { s with m_pD2DFactory := (Initialize a s).2.m_pD2DFactory,
                                  m_pIWICFactory := (Initialize a s).2.m_pIWICFactory } := by
  unfold Initialize
  dsimp only
  split_ifs <;> rfl

theorem CreateDeviceResources_same (a : StartAnswers) (s : gif_reader) (p : HRESULT × gif_reader)
    (h : CreateDeviceResources a s = some p) :
    p.2 = { s with m_RenderTexture := p.2.m_RenderTexture, m_RenderTarget := p.2.m_RenderTarget,
                   m_pFrameComposeRT := p.2.m_pFrameComposeRT } := by
  unfold CreateDeviceResources at h
  dsimp only at h
  split_ifs at h <;> (replace h := Option.some.inj h; subst h; rfl)


theorem StartCapture_decode_spec (a : StartAnswers) (s : gif_reader) :
    (StartCapture_decode a s).2.m_uNextFrameIndex = s.m_uNextFrameIndex ∧
    (StartCapture_decode a s).2.m_captureLoopStarted = s.m_captureLoopStarted ∧
    (SUCCEEDED (StartCapture_decode a s).1 = true →
      (StartCapture_decode a s).2.m_cFrames = a.global.frameCount) ∧
    (SUCCEEDED a.CreateDecoderFromFilename = true → SUCCEEDED a.global.GetFrameCount = true →
      (StartCapture_decode a s).2.m_cFrames = a.global.frameCount) := by
  unfold StartCapture_decode
  by_cases h : SUCCEEDED a.CreateDecoderFromFilename = true
  · rw [if_pos h]
    obtain ⟨m1, m2, m3, m4⟩ := GetGlobalMetadata_spec a.global { s with m_pDecoder := true }
    exact ⟨m1, m2, m3, fun _ => m4⟩
  · rw [if_neg h]
    exact ⟨rfl, rfl, fun h1 => absurd h1 h, fun h1 => absurd h1 h⟩

/-- A completed, successful preparation has reset the frame index and read the
frame count. -/
theorem StartCapture_prepare_spec (a : StartAnswers) (s : gif_reader) (q : HRESULT × gif_reader)
    (h : StartCapture_prepare a s = some q) :
    q.2.m_captureLoopStarted = s.m_captureLoopStarted ∧
    (SUCCEEDED q.1 = true → q.2.m_uNextFrameIndex = 0 ∧ q.2.m_cFrames = a.global.frameCount) ∧
    (FAILED (Initialize a s).1 = false → SUCCEEDED a.CreateDecoderFromFilename = true →
      SUCCEEDED a.global.GetFrameCount = true → q.2.m_cFrames = a.global.frameCount) := by
  unfold StartCapture_prepare at h
  have hi := Initialize_same a s
  obtain ⟨m1, m2, m3, m4⟩ := StartCapture_decode_spec a (StartCapture_reset (Initialize a s).2)
  have hl : (StartCapture_reset (Initialize a s).2).m_captureLoopStarted = s.m_captureLoopStarted := by
    show (Initialize a s).2.m_captureLoopStarted = _
    rw [hi]
  have hx : (StartCapture_reset (Initialize a s).2).m_uNextFrameIndex = 0 := rfl
  rw [hl] at m2
  rw [hx] at m1
  generalize StartCapture_decode a (StartCapture_reset (Initialize a s).2) = p3 at h m1 m2 m3 m4
  by_cases h0 : FAILED (Initialize a s).1 = true
  · rw [if_pos h0] at h
    replace h := Option.some.inj h
    subst h
    refine ⟨by rw [hi], fun hs => ?_, fun hf => ?_⟩
    · rw [FAILED_eq_not] at h0
      simp [hs] at h0
    · rw [hf] at h0
      exact absurd h0 (by simp)
  · rw [if_neg h0] at h
    by_cases h1 : (Initialize a s).2.m_pIWICFactory = false
    · rw [if_pos h1] at h
      exact absurd h (by simp)
    · rw [if_neg h1] at h
      by_cases h3 : SUCCEEDED p3.1 = true
      · rw [if_pos h3] at h
        have hd := CreateDeviceResources_same a _ q h
        refine ⟨?_, fun _ => ⟨?_, ?_⟩, fun _ hc hg => ?_⟩
        · rw [hd]; exact m2
        · rw [hd]; exact m1
        · rw [hd]; exact m3 h3
        · rw [hd]; exact m4 hc hg
      · rw [if_neg h3] at h
        replace h := Option.some.inj h
        subst h
        exact ⟨m2, fun hs => absurd hs h3, fun _ hc hg => m4 hc hg⟩

/-! ## Lemmas on the disposal `DM_PREVIOUS` -/

theorem GetRawFrame_disposal_value (resp : FrameAnswers) (s : gif_reader) (p : HRESULT × gif_reader)
    (v : Nat) (h : GetRawFrame resp s = some p) (hs : SUCCEEDED p.1 = true)
    (h1 : SUCCEEDED resp.Disposal.hr = true) (h2 : resp.Disposal.value = PROPVARIANT.VT_UI1 v) :
    p.2.m_uFrameDisposal = v := by
  unfold GetRawFrame at h
  rw [Option.map_eq_some'] at h
  obtain ⟨p0, -, hp⟩ := h
  subst hp
  have h3 := GetRawFrame_disposal_fst resp _ hs
  unfold GetRawFrame_disposal
  rw [if_pos h3]
  unfold GetRawFrame_disposalValue
  rw [if_pos h1, h2]

/-- A successful `OverlayNextFrame` of a frame that declares `DM_PREVIOUS` leaves
the surface it started from in `m_pSavedFrame`. -/
theorem OverlayNextFrame_saved (e : StepAnswers) (s : gif_reader) (p : HRESULT × gif_reader)
    (h : OverlayNextFrame e s = some p) (hs : SUCCEEDED p.1 = true)
    (h1 : SUCCEEDED (e.decode s.m_uNextFrameIndex).Disposal.hr = true)
    (h2 : (e.decode s.m_uNextFrameIndex).Disposal.value = PROPVARIANT.VT_UI1 DM_PREVIOUS) :
    p.2.m_uFrameDisposal = DM_PREVIOUS ∧ p.2.m_pSavedFrame = s.m_pFrameComposeRT := by
  obtain ⟨p0, p1, p2, h0, hsv, hdr, hadv⟩ := OverlayNextFrame_stages e s p h
  obtain ⟨⟨-, g2, -, -, -, -⟩, -⟩ := GetRawFrame_spec _ s p0 h0
  obtain ⟨s1, s2, s3⟩ := saveStage_spec _ p0 p1 hsv
  obtain ⟨d1, -, d3⟩ := drawStage_spec _ p1 p2 hdr
  obtain ⟨a1, a2, -, -⟩ := OverlayNextFrame_advance_spec p2 p hadv
  have hs2 : SUCCEEDED p2.1 = true := a1 ▸ hs
  have hs1 := d3 hs2
  have hs0 := s2 hs1
  have hd0 := GetRawFrame_disposal_value _ s p0 DM_PREVIOUS h0 hs0 h1 h2
  constructor
  · rw [a2, d1, s1]; exact hd0
  · rw [a2, d1]
    show p1.2.m_pSavedFrame = _
    rw [s3 hs1 hd0, g2]

theorem DisposeCurrentFrame_previous (a : SurfaceAnswers) (s : gif_reader)
    (hd : s.m_uFrameDisposal = DM_PREVIOUS) : DisposeCurrentFrame a s = RestoreSavedFrame a s := by
  unfold DisposeCurrentFrame
  rw [hd]
  simp [DM_PREVIOUS, DM_UNDEFINED, DM_NONE, DM_BACKGROUND]

theorem RestoreSavedFrame_eq (a : SurfaceAnswers) (s : gif_reader) (saved composed : Canvas)
    (hs : s.m_pSavedFrame = some saved) (hc : s.m_pFrameComposeRT = some composed) :
    RestoreSavedFrame a s =
      some ((RestoreSavedFrame_copy a saved composed).1,
            { s with m_pFrameComposeRT := some (RestoreSavedFrame_copy a saved composed).2 }) := by
  cases s
  simp only at hs hc
  subst hs hc
  rfl

theorem RestoreSavedFrame_copy_spec (a : SurfaceAnswers) (saved composed : Canvas) :
    (SUCCEEDED (RestoreSavedFrame_copy a saved composed).1 = true ↔
      SUCCEEDED a.RestoreGetBitmap = true ∧ SUCCEEDED a.RestoreCopyFromBitmap = true) ∧
    (SUCCEEDED (RestoreSavedFrame_copy a saved composed).1 = true →
      (RestoreSavedFrame_copy a saved composed).2 = saved) := by
  unfold RestoreSavedFrame_copy
  by_cases g1 : SUCCEEDED a.RestoreGetBitmap = true
  · rw [if_pos g1]
    refine ⟨⟨fun h => ⟨g1, h⟩, fun h => h.2⟩, fun h => ?_⟩
    change SUCCEEDED a.RestoreCopyFromBitmap = true at h
    simp only [if_pos h]
  · rw [if_neg g1]
    exact ⟨⟨fun h => absurd h g1, fun h => absurd h.1 g1⟩, fun h => absurd h g1⟩

/-! ## Lemmas on the frame delay -/

theorem GetRawFrame_delayValue_present (m : MetadataAnswer) (hr : HRESULT) (old d : Nat)
    (hd : d < 65536) (h1 : SUCCEEDED m.hr = true) (h2 : m.value = PROPVARIANT.VT_UI2 d) :
    GetRawFrame_delayValue m hr old = (S_OK, if 20 ≤ 10 * d then 10 * d else 90) := by
  have hlt : d * 10 < 2 ^ 32 := by omega
  unfold GetRawFrame_delayValue
  rw [if_pos h1, h2]
  simp only [UIntMult, if_pos hlt, SUCCEEDED_S_OK, if_true]
  by_cases h20 : d * 10 < 20
  · rw [if_pos h20, if_neg (by omega)]
  · rw [if_neg h20, if_pos (by omega), Nat.mul_comm]

theorem GetRawFrame_delayValue_absent (m : MetadataAnswer) (hr : HRESULT) (old : Nat)
    (h0 : SUCCEEDED hr = true) (h1 : SUCCEEDED m.hr = false) :
    GetRawFrame_delayValue m hr old = (hr, 90) := by
  unfold GetRawFrame_delayValue
  simp [h1, h0]

/-- The delay a successful `GetRawFrame` leaves is the value of the delay step. -/
theorem GetRawFrame_delay_value (resp : FrameAnswers) (s : gif_reader) (p : HRESULT × gif_reader)
    (h : GetRawFrame resp s = some p) (hs : SUCCEEDED p.1 = true) :
    ∃ hr old, SUCCEEDED hr = true ∧
      p.2.m_uFrameDelay = (GetRawFrame_delayValue resp.Delay hr old).2 := by
  unfold GetRawFrame at h
  rw [Option.map_eq_some'] at h
  obtain ⟨p0, -, hp⟩ := h
  subst hp
  have h3 := GetRawFrame_disposal_fst resp _ hs
  obtain ⟨h4, -⟩ := GetRawFrame_delay_fst resp _ h3
  refine ⟨(GetRawFrame_geometry resp p0).1, (GetRawFrame_geometry resp p0).2.m_uFrameDelay, h4, ?_⟩
  rw [(GetRawFrame_disposal_same resp _).2]
  unfold GetRawFrame_delay
  rw [if_pos h4]

/-! ## Lemmas on single-precision rounding -/

theorem roundHalfEven_intCast (z : ℤ) : roundHalfEven (z : ℚ) = z := by
  unfold roundHalfEven
  rw [Int.floor_intCast, sub_self, if_pos (by norm_num)]

theorem le_roundHalfEven (z : ℤ) (q : ℚ) (h : (z : ℚ) ≤ q) : z ≤ roundHalfEven q := by
  have hf : z ≤ ⌊q⌋ := Int.le_floor.mpr h
  unfold roundHalfEven
  split_ifs <;> omega

theorem roundHalfEven_lt (z : ℤ) (q : ℚ) (h : q + 1 / 2 < (z : ℚ)) : roundHalfEven q < z := by
  have hfq : (⌊q⌋ : ℚ) ≤ q := Int.floor_le q
  have hf : ⌊q⌋ < z := by
    have : (⌊q⌋ : ℚ) < (z : ℚ) := by linarith
    exact_mod_cast this
  unfold roundHalfEven
  by_cases h1 : q - ⌊q⌋ < 1 / 2
  · rw [if_pos h1]; exact hf
  · rw [if_neg h1]
    have h2 : ((⌊q⌋ + 1 : ℤ) : ℚ) < (z : ℚ) := by
      push_cast
      linarith
    have h3 : ⌊q⌋ + 1 < z := by exact_mod_cast h2
    split_ifs <;> omega

/-- The unit in the last place used by `float32` is a negative power of two once
the exponent of the leading bit is at most `B ≤ 23`. -/
theorem float32_ulp (q : ℚ) (B : ℤ) (hB : B ≤ 23) (hE : max (Int.log 2 |q|) (-126) ≤ B) :
    ∃ K : ℕ, (23 - B).toNat ≤ K ∧
      (2 : ℚ) ^ (max (Int.log 2 |q|) (-126) - 23) * 2 ^ K = 1 := by
  refine ⟨(23 - max (Int.log 2 |q|) (-126)).toNat, Int.toNat_le_toNat (by omega), ?_⟩
  rw [← zpow_natCast, ← zpow_add₀ (by norm_num : (2 : ℚ) ≠ 0)]
  rw [Int.toNat_of_nonneg (by omega)]
  norm_num

theorem exponent_le (q : ℚ) (B : ℤ) (hq : 0 < q) (hB : -126 ≤ B) (hlt : q < 2 ^ (B + 1)) :
    max (Int.log 2 |q|) (-126) ≤ B := by
  rw [abs_of_pos hq]
  have h : Int.log 2 q < B + 1 := by
    have := (Int.lt_zpow_iff_log_lt (R := ℚ) (b := 2) (by norm_num) hq (x := B + 1)).mp
      (by exact_mod_cast hlt)
    exact this
  exact max_le (by omega) hB


/-- Rounding to `FLOAT` does not cross an integer that the real value misses by
more than `1 / 512`, for values below `2 ^ 16`. -/
theorem float32_between (q : ℚ) (n : ℕ) (hlo : (n : ℚ) ≤ q) (hhi : q + 1 / 512 < n + 1)
    (hlt : q < 2 ^ 16) : (n : ℚ) ≤ float32 q ∧ float32 q < n + 1 := by
  have hq0 : 0 ≤ q := le_trans (Nat.cast_nonneg n) hlo
  have hE : max (Int.log 2 |q|) (-126) ≤ 15 := by
    rcases hq0.eq_or_lt with h0 | hpos
    · rw [← h0]; simp
    · exact exponent_le q 15 hpos (by norm_num) (by norm_num; linarith)
  obtain ⟨K, hK, hu⟩ := float32_ulp q 15 (by norm_num) hE
  have hK8 : 8 ≤ K := by simpa using hK
  unfold float32
  generalize (2 : ℚ) ^ (max (Int.log 2 |q|) (-126) - 23) = u at hu ⊢
  have hpow : (0 : ℚ) < 2 ^ K := by positivity
  have hupos : 0 < u := by
    by_contra hneg
    have : u * 2 ^ K ≤ 0 := mul_nonpos_of_nonpos_of_nonneg (not_lt.mp hneg) hpow.le
    linarith
  have hdiv : q / u = q * 2 ^ K := by
    field_simp
    rw [mul_assoc, mul_comm (2 ^ K) u, hu, mul_one]
  have h256 : (256 : ℚ) ≤ 2 ^ K := by
    calc (256 : ℚ) = 2 ^ 8 := by norm_num
      _ ≤ 2 ^ K := pow_le_pow_right₀ (by norm_num) hK8
  rw [hdiv]
  constructor
  · have h1 : (((n * 2 ^ K : ℕ) : ℤ) : ℚ) ≤ q * 2 ^ K := by
      push_cast
      exact mul_le_mul_of_nonneg_right hlo hpow.le
    have h2 := le_roundHalfEven _ _ h1
    have h3 : ((n * 2 ^ K : ℕ) : ℚ) ≤ (roundHalfEven (q * 2 ^ K) : ℚ) := by exact_mod_cast h2
    calc (n : ℚ) = ((n * 2 ^ K : ℕ) : ℚ) * u := by
          push_cast; rw [mul_assoc, mul_comm (2 ^ K) u, hu, mul_one]
      _ ≤ (roundHalfEven (q * 2 ^ K) : ℚ) * u := mul_le_mul_of_nonneg_right h3 hupos.le
  · have h1 : q * 2 ^ K + 1 / 2 < ((((n + 1) * 2 ^ K : ℕ) : ℤ) : ℚ) := by
      push_cast
      nlinarith
    have h2 := roundHalfEven_lt _ _ h1
    have h3 : (roundHalfEven (q * 2 ^ K) : ℚ) < (((n + 1) * 2 ^ K : ℕ) : ℚ) := by exact_mod_cast h2
    calc (roundHalfEven (q * 2 ^ K) : ℚ) * u < (((n + 1) * 2 ^ K : ℕ) : ℚ) * u :=
          mul_lt_mul_of_pos_right h3 hupos
      _ = (n : ℚ) + 1 := by
          push_cast; rw [mul_assoc, mul_comm (2 ^ K) u, hu, mul_one]

/-- A number with at most 24 significant bits is a `FLOAT`: rounding keeps it. -/
theorem float32_exact (m j : ℕ) (hm : m < 2 ^ 24) (hj : j ≤ 100) :
    float32 ((m : ℚ) / 2 ^ j) = (m : ℚ) / 2 ^ j := by
  rcases Nat.eq_zero_or_pos m with h0 | hpos
  · subst h0
    unfold float32
    simp [roundHalfEven]
  · have hq : (0 : ℚ) < (m : ℚ) / 2 ^ j := by positivity
    have hE : max (Int.log 2 |(m : ℚ) / 2 ^ j|) (-126) ≤ 23 - (j : ℤ) := by
      apply exponent_le _ _ hq (by omega)
      have h1 : (m : ℚ) < 2 ^ 24 := by exact_mod_cast hm
      have h2 : (2 : ℚ) ^ (23 - (j : ℤ) + 1) = 2 ^ 24 / 2 ^ j := by
        rw [show (23 - (j : ℤ) + 1) = (24 : ℤ) - j by ring, zpow_sub₀ (by norm_num)]
        norm_cast
      rw [h2]
      exact div_lt_div_of_pos_right h1 (by positivity)
    obtain ⟨K, hK, hu⟩ := float32_ulp _ (23 - (j : ℤ)) (by omega) hE
    have hKj : j ≤ K := by
      have : (23 - (23 - (j : ℤ))).toNat = j := by simp
      omega
    unfold float32
    generalize (2 : ℚ) ^ (max (Int.log 2 |(m : ℚ) / 2 ^ j|) (-126) - 23) = u at hu ⊢
    have hpow : (0 : ℚ) < 2 ^ K := by positivity
    have hune : u ≠ 0 := by
      rintro rfl
      simp at hu
    have hsplit : (2 : ℚ) ^ K = 2 ^ (K - j) * 2 ^ j := by
      rw [← pow_add, Nat.sub_add_cancel hKj]
    have hdiv : (m : ℚ) / 2 ^ j / u = (((m * 2 ^ (K - j) : ℕ) : ℤ) : ℚ) := by
      push_cast
      field_simp
      calc (m : ℚ) = m * (u * 2 ^ K) := by rw [hu, mul_one]
        _ = m * 2 ^ (K - j) * (2 ^ j * u) := by rw [hsplit]; ring
    rw [hdiv, roundHalfEven_intCast]
    push_cast
    field_simp
    calc (m : ℚ) * 2 ^ (K - j) * u * 2 ^ j = m * (u * (2 ^ (K - j) * 2 ^ j)) := by ring
      _ = m := by rw [← hsplit, hu, mul_one]


theorem float32_natCast (m : ℕ) (hm : m < 2 ^ 24) : float32 (m : ℚ) = m := by
  have h := float32_exact m 0 hm (by norm_num)
  simpa using h

/-- Line 341 in exact arithmetic: the ratio is `(r + 15) / 64`, without rounding error. -/
theorem pixelAspRatio_eq (r : ℕ) (hr : r < 256) : pixelAspRatio r = ((r + 15 : ℕ) : ℚ) / 2 ^ 6 := by
  unfold pixelAspRatio
  rw [float32_natCast r (by omega)]
  have h1 : (r : ℚ) + 15 = ((r + 15 : ℕ) : ℚ) := by push_cast; ring
  rw [h1, float32_natCast (r + 15) (by omega)]
  have h2 : ((r + 15 : ℕ) : ℚ) / 64 = ((r + 15 : ℕ) : ℚ) / 2 ^ 6 := by norm_num
  rw [h2]
  exact float32_exact (r + 15) 6 (by omega) (by norm_num)

/-- Lines 334-361 in integer arithmetic. -/
theorem imagePixelSize_eq (w h r : ℕ) (hw : w < 65536) (hh : h < 65536) (hr : r < 256) :
    imagePixelSize w h r =
      if r = 0 then (w, h)
      else if 64 < r + 15 then (w, 64 * h / (r + 15))
      else (w * (r + 15) / 64, h) := by
  unfold imagePixelSize
  by_cases h0 : r = 0
  · simp [h0]
  · rw [if_pos h0, if_neg h0, pixelAspRatio_eq r hr]
    have hD : (0 : ℚ) < ((r + 15 : ℕ) : ℚ) := by positivity
    by_cases hgt : 64 < r + 15
    · have h1 : (1 : ℚ) < ((r + 15 : ℕ) : ℚ) / 2 ^ 6 := by
        rw [lt_div_iff₀ (by norm_num)]
        have : ((64 : ℕ) : ℚ) < ((r + 15 : ℕ) : ℚ) := by exact_mod_cast hgt
        norm_num at this ⊢
        linarith
      rw [if_pos h1, if_pos hgt, float32_natCast h (by omega)]
      have hx : (h : ℚ) / (((r + 15 : ℕ) : ℚ) / 2 ^ 6) = ((64 * h : ℕ) : ℚ) / ((r + 15 : ℕ) : ℚ) := by
        field_simp
        ring
      rw [hx]
      set N := 64 * h with hN
      set D := r + 15 with hDdef
      have hDpos : 0 < D := by omega
      have hdm := Nat.div_add_mod N D
      have hmod := Nat.mod_lt N hDpos
      have hlo : ((N / D : ℕ) : ℚ) ≤ (N : ℚ) / (D : ℚ) := by
        rw [le_div_iff₀ hD]
        have : N / D * D ≤ N := Nat.div_mul_le_self N D
        exact_mod_cast this
      have hhi : (N : ℚ) / (D : ℚ) + 1 / 512 < ((N / D : ℕ) : ℚ) + 1 := by
        have e1 : (N : ℚ) = (D : ℚ) * ((N / D : ℕ) : ℚ) + ((N % D : ℕ) : ℚ) := by exact_mod_cast hdm.symm
        have e2 : ((N % D : ℕ) : ℚ) + 1 ≤ (D : ℚ) := by exact_mod_cast hmod
        have e3 : (D : ℚ) ≤ 270 := by
          have : D ≤ 270 := by omega
          exact_mod_cast this
        rw [div_add' _ _ _ hD.ne', div_lt_iff₀ hD]
        nlinarith
      have hlt : (N : ℚ) / (D : ℚ) < 2 ^ 16 := by
        rw [div_lt_iff₀ hD]
        have : N < 2 ^ 16 * D := by omega
        exact_mod_cast this
      obtain ⟨b1, b2⟩ := float32_between _ (N / D) hlo hhi hlt
      have hfl : ⌊float32 ((N : ℚ) / (D : ℚ))⌋₊ = N / D :=
        (Nat.floor_eq_iff (le_trans (Nat.cast_nonneg _) b1)).mpr ⟨b1, b2⟩
      unfold truncUINT
      rw [hfl, Nat.mod_eq_of_lt]
      have : N / D ≤ N := Nat.div_le_self N D
      omega
    · have h1 : ¬ (1 : ℚ) < ((r + 15 : ℕ) : ℚ) / 2 ^ 6 := by
        rw [not_lt, div_le_iff₀ (by norm_num)]
        have : ((r + 15 : ℕ) : ℚ) ≤ ((64 : ℕ) : ℚ) := by exact_mod_cast (not_lt.mp hgt)
        norm_num at this ⊢
        linarith
      rw [if_neg h1, if_neg hgt, float32_natCast w (by omega)]
      have hx : (w : ℚ) * (((r + 15 : ℕ) : ℚ) / 2 ^ 6) = ((w * (r + 15) : ℕ) : ℚ) / 2 ^ 6 := by
        push_cast
        ring
      have hbound : w * (r + 15) < 2 ^ 24 := by
        have : w * (r + 15) ≤ 65535 * 64 := Nat.mul_le_mul (by omega) (by omega)
        omega
      rw [hx, float32_exact (w * (r + 15)) 6 hbound (by norm_num)]
      unfold truncUINT
      have hfl : ⌊((w * (r + 15) : ℕ) : ℚ) / 2 ^ 6⌋₊ = w * (r + 15) / 64 := by
        have := Nat.floor_div_eq_div (α := ℚ) (w * (r + 15)) 64
        simpa using this
      rw [hfl, Nat.mod_eq_of_lt]
      have : w * (r + 15) / 64 ≤ w * (r + 15) := Nat.div_le_self _ _
      omega


/-- With the logical screen fields and the aspect byte readable, `GetGlobalMetadata`
stores the logical size and the size `imagePixelSize` computes from it. -/
theorem GetGlobalMetadata_size_readable (g : GlobalAnswers) (s : gif_reader) (w h r : ℕ)
    (h0 : SUCCEEDED (GetGlobalMetadata_openHr g) = true)
    (hw1 : SUCCEEDED g.Width.hr = true) (hw2 : g.Width.value = PROPVARIANT.VT_UI2 w)
    (hh1 : SUCCEEDED g.Height.hr = true) (hh2 : g.Height.value = PROPVARIANT.VT_UI2 h)
    (hr1 : SUCCEEDED g.PixelAspectRatio.hr = true)
    (hr2 : g.PixelAspectRatio.value = PROPVARIANT.VT_UI1 r) :
    (GetGlobalMetadata g s).2.m_cxGifImage = w ∧ (GetGlobalMetadata g s).2.m_cyGifImage = h ∧
    (GetGlobalMetadata g s).2.m_cxGifImagePixel = (imagePixelSize w h r).1 ∧
    (GetGlobalMetadata g s).2.m_cyGifImagePixel = (imagePixelSize w h r).2 := by
  have hscr : ∀ cx cy, GetGlobalMetadata_screen g (GetGlobalMetadata_openHr g) cx cy = (S_OK, w, h) := by
    intro cx cy
    simp [GetGlobalMetadata_screen, readUI2, h0, hw1, hw2, hh1, hh2, SUCCEEDED_S_OK]
  have hpix : ∀ cxp cyp, GetGlobalMetadata_pixel g S_OK w h cxp cyp = (S_OK, imagePixelSize w h r) := by
    intro cxp cyp
    simp [GetGlobalMetadata_pixel, hr1, hr2, SUCCEEDED_S_OK]
  have key : (GetGlobalMetadata_size g (GetGlobalMetadata_open g s)).2.m_cxGifImage = w ∧
      (GetGlobalMetadata_size g (GetGlobalMetadata_open g s)).2.m_cyGifImage = h ∧
      (GetGlobalMetadata_size g (GetGlobalMetadata_open g s)).2.m_cxGifImagePixel = (imagePixelSize w h r).1 ∧
      (GetGlobalMetadata_size g (GetGlobalMetadata_open g s)).2.m_cyGifImagePixel = (imagePixelSize w h r).2 := by
    unfold GetGlobalMetadata_size
    have e1 : (GetGlobalMetadata_open g s).1 = GetGlobalMetadata_openHr g := rfl
    simp only [e1, hscr, hpix]
    exact ⟨trivial, trivial, trivial, trivial⟩
  exact key

/-! ## Lemmas on `ResizeFrameBuffer` -/

theorem toInt32_of_lt (s : Nat) (hs : s < 2 ^ 31) : toInt32 s = (s : Int) := by
  unfold toInt32
  have h1 : s % 2 ^ 32 = s := Nat.mod_eq_of_lt (by omega)
  rw [h1, if_pos hs]

theorem toUInt32_of_nonneg (n : Int) (h0 : 0 ≤ n) (h1 : n < 2 ^ 31) : (toUInt32 n : Int) = n := by
  unfold toUInt32
  rw [Int.emod_eq_of_lt h0 (by omega), Int.toNat_of_nonneg h0]

/-- One `ResizeFrameBuffer` whose allocation succeeds, on sizes that fit an `int`. -/
theorem ResizeFrameBuffer_spec (f : FRAME_INFO) (n : Int) (hs : f.BufferSize < 2 ^ 31)
    (hn : n < 2 ^ 31) :
    (ResizeFrameBuffer true f n).1 = S_OK ∧
    ((ResizeFrameBuffer true f n).2.BufferSize : Int) = max (f.BufferSize : Int) n ∧
    (ResizeFrameBuffer true f n).2.BufferSize < 2 ^ 31 ∧
    (n ≤ (f.BufferSize : Int) → (ResizeFrameBuffer true f n).2 = f) ∧
    ((f.BufferSize : Int) < n →
      (ResizeFrameBuffer true f n).2.PtrFrameBuffer = some (ResizeFrameBuffer true f n).2.BufferSize) := by
  unfold ResizeFrameBuffer
  rw [toInt32_of_lt _ hs]
  by_cases h : (f.BufferSize : Int) < n
  · have h0 : 0 ≤ n := by omega
    have hu := toUInt32_of_nonneg n h0 hn
    rw [if_pos h, if_pos rfl]
    refine ⟨rfl, ?_, ?_, fun hle => absurd h (by omega), fun _ => rfl⟩
    · rw [hu, max_eq_right h.le]
    · have : ((toUInt32 n : Nat) : Int) < 2 ^ 31 := by rw [hu]; exact hn
      exact_mod_cast this
  · rw [if_neg h]
    exact ⟨rfl, by rw [max_eq_left (not_lt.mp h)], hs, fun _ => rfl, fun hlt => absurd hlt h⟩

theorem le_foldl_max (reqs : List Int) (s : Int) :
    s ≤ reqs.foldl max s ∧ ∀ m ∈ reqs, m ≤ reqs.foldl max s := by
  induction reqs generalizing s with
  | nil => simp
  | cons n rest ih =>
    obtain ⟨h1, h2⟩ := ih (max s n)
    refine ⟨le_trans (le_max_left s n) h1, fun m hm => ?_⟩
    rcases List.mem_cons.mp hm with rfl | hm'
    · exact le_trans (le_max_right s m) h1
    · exact h2 m hm'

/-- A run of `ResizeFrameBuffer` calls leaves the largest of the initial size and
the requests. -/
theorem resizeAll_size (reqs : List Int) (f : FRAME_INFO) (hs : f.BufferSize < 2 ^ 31)
    (hr : ∀ m ∈ reqs, m < 2 ^ 31) :
    ((resizeAll f reqs).BufferSize : Int) = reqs.foldl max (f.BufferSize : Int) ∧
    (resizeAll f reqs).BufferSize < 2 ^ 31 := by
  induction reqs generalizing f with
  | nil => exact ⟨rfl, hs⟩
  | cons n rest ih =>
    obtain ⟨-, k2, k3, -, -⟩ := ResizeFrameBuffer_spec f n hs (hr n (List.mem_cons_self n rest))
    have := ih (ResizeFrameBuffer true f n).2 k3 (fun m hm => hr m (List.mem_cons_of_mem n hm))
    unfold resizeAll at this ⊢
    rw [List.foldl_cons, List.foldl_cons, ← k2]
    exact this

/-! ## Lemmas on a failed compose cycle -/

theorem OverlayNextFrame_draw_failed (a : SurfaceAnswers) (s : gif_reader) (p : HRESULT × gif_reader)
    (h : OverlayNextFrame_draw a s = some p) (hf : ¬ SUCCEEDED p.1 = true) :
    p.2.m_pFrameComposeRT = s.m_pFrameComposeRT := by
  unfold OverlayNextFrame_draw at h
  rcases Option.eq_none_or_eq_some s.m_pFrameComposeRT with hc | ⟨composed, hc⟩
  · simp [hc] at h
  · rcases Option.eq_none_or_eq_some s.m_pRawFrame with hr | ⟨raw, hr⟩
    · simp [hc, hr] at h
    · simp only [hc, hr] at h
      replace h := Option.some.inj h
      subst h
      change ¬ SUCCEEDED a.OverlayEndDraw = true at hf
      show some (EndDraw a.OverlayEndDraw composed _) = _
      unfold EndDraw
      rw [if_neg hf, hc]

/-- A failed `OverlayNextFrame` leaves the composed surface as it found it. -/
theorem OverlayNextFrame_failed (e : StepAnswers) (s : gif_reader) (p : HRESULT × gif_reader)
    (h : OverlayNextFrame e s = some p) (hf : ¬ SUCCEEDED p.1 = true) :
    p.2.m_pFrameComposeRT = s.m_pFrameComposeRT := by
  obtain ⟨p0, p1, p2, h0, hsv, hdr, hadv⟩ := OverlayNextFrame_stages e s p h
  obtain ⟨⟨-, g2, -, -, -, -⟩, -⟩ := GetRawFrame_spec _ s p0 h0
  obtain ⟨s1, -, -⟩ := saveStage_spec _ p0 p1 hsv
  obtain ⟨a1, a2, -, -⟩ := OverlayNextFrame_advance_spec p2 p hadv
  have hf2 : ¬ SUCCEEDED p2.1 = true := a1 ▸ hf
  have e1 : p1.2.m_pFrameComposeRT = s.m_pFrameComposeRT := by rw [s1]; exact g2
  have e2 : p2.2.m_pFrameComposeRT = p1.2.m_pFrameComposeRT := by
    by_cases hs1 : SUCCEEDED p1.1 = true
    · rw [if_pos hs1] at hdr
      exact OverlayNextFrame_draw_failed _ _ _ hdr hf2
    · rw [if_neg hs1] at hdr
      replace hdr := Option.some.inj hdr
      subst hdr
      rfl
  rw [a2]
  exact e2.trans e1

/-- A failed `DisposeCurrentFrame` leaves the composed surface as it found it, and
so does every `DisposeCurrentFrame` of a frame with disposal `DM_UNDEFINED` or
`DM_NONE`. -/
theorem DisposeCurrentFrame_failed (a : SurfaceAnswers) (s : gif_reader) (q : HRESULT × gif_reader)
    (h : DisposeCurrentFrame a s = some q) :
    (¬ SUCCEEDED q.1 = true → q.2.m_pFrameComposeRT = s.m_pFrameComposeRT) ∧
    (s.m_uFrameDisposal = DM_UNDEFINED ∨ s.m_uFrameDisposal = DM_NONE →
      q.2.m_pFrameComposeRT = s.m_pFrameComposeRT) := by
  unfold DisposeCurrentFrame at h
  split_ifs at h with h1 h2 h3
  · replace h := Option.some.inj h
    subst h
    exact ⟨fun _ => rfl, fun _ => rfl⟩
  · refine ⟨fun hf => ?_, fun hd => absurd hd h1⟩
    unfold ClearCurrentFrameArea at h
    rcases Option.eq_none_or_eq_some s.m_pFrameComposeRT with hc | ⟨composed, hc⟩
    · simp [hc] at h
    · simp only [hc] at h
      replace h := Option.some.inj h
      subst h
      change ¬ SUCCEEDED a.ClearEndDraw = true at hf
      show some (EndDraw a.ClearEndDraw composed _) = _
      unfold EndDraw
      rw [if_neg hf, hc]
  · refine ⟨fun hf => ?_, fun hd => absurd hd h1⟩
    unfold RestoreSavedFrame at h
    rcases Option.eq_none_or_eq_some s.m_pSavedFrame with hs | ⟨saved, hs⟩
    · simp only [hs] at h
      replace h := Option.some.inj h
      subst h
      rfl
    · rcases Option.eq_none_or_eq_some s.m_pFrameComposeRT with hc | ⟨composed, hc⟩
      · simp [hs, hc] at h
      · simp only [hs, hc] at h
        replace h := Option.some.inj h
        subst h
        change ¬ SUCCEEDED (RestoreSavedFrame_copy a saved composed).1 = true at hf
        show some (RestoreSavedFrame_copy a saved composed).2 = _
        rw [hc]
        unfold RestoreSavedFrame_copy at hf ⊢
        by_cases g1 : SUCCEEDED a.RestoreGetBitmap = true
        · rw [if_pos g1] at hf ⊢
          change ¬ SUCCEEDED a.RestoreCopyFromBitmap = true at hf
          simp only [if_neg hf]
        · rw [if_neg g1]
  · replace h := Option.some.inj h
    subst h
    exact ⟨fun _ => rfl, fun _ => rfl⟩

/-! ## Lemmas on the production loop -/

/-- The termination of a loop iteration does not depend on the result of its
`ComposeNextFrame`: the task leaves the loop exactly when the timer wait fails or
the loop condition is false, and every completed iteration signals a new frame. -/
theorem CaptureLoop_iteration_spec (IsLast EndOfAnim : gif_reader → Bool) (fuel : Nat)
    (a : IterationAnswers) (t t' : CaptureTask)
    (h : CaptureLoop_iteration IsLast EndOfAnim fuel a t = some t') :
    ∃ p, ComposeNextFrame IsLast a.compose fuel t.reader = some p ∧ t'.reader = p.2 ∧
      t'.composeResults = t.composeResults ++ [p.1] ∧
      t'.newFrameEvents = t.newFrameEvents + 1 ∧
      t'.returned = (FAILED a.WaitFor || !(!EndOfAnim p.2 && decide (1 < p.2.m_cFrames))) := by
  unfold CaptureLoop_iteration at h
  rw [Option.bind_eq_some] at h
  obtain ⟨p, hp, h⟩ := h
  refine ⟨p, hp, ?_⟩
  rcases Option.eq_none_or_eq_some p.2.m_pFrameComposeRT with hc | ⟨composed, hc⟩
  · simp [hc] at h
  · simp only [hc] at h
    split_ifs at h
    replace h := Option.some.inj h
    subst h
    exact ⟨rfl, rfl, rfl, rfl⟩

/-! # The claims -/

/-- C1: for a source with frame count n > 0 the next-frame index stays in
`0 ≤ index < n`.  With the index in range, every `ComposeNextFrame` call (any
answers of the services, any fuel, successful or failed) returns and leaves the
frame count unchanged and the index in range; every `OverlayNextFrame` sets the
index to `(index + 1) mod n` when it succeeds and leaves it unchanged when it
fails; and a successful `StartCapture` on a source with n > 0 frames leaves index 0
with `m_cFrames = n`. -/
theorem C1_next_frame_index_in_range (IsLast : gif_reader → Bool) (env : Nat → StepAnswers)
    (fuel : Nat) (e : StepAnswers) (s : gif_reader)
    (hn : s.m_uNextFrameIndex < s.m_cFrames) (h32 : s.m_cFrames < 2 ^ 32) :
    (∃ p, ComposeNextFrame IsLast env fuel s = some p ∧ p.2.m_cFrames = s.m_cFrames ∧
      p.2.m_uNextFrameIndex < p.2.m_cFrames) ∧
    (∀ p, OverlayNextFrame e s = some p →
      p.2.m_cFrames = s.m_cFrames ∧
      (SUCCEEDED p.1 = true → p.2.m_uNextFrameIndex = (s.m_uNextFrameIndex + 1) % s.m_cFrames) ∧
      (SUCCEEDED p.1 = false → p.2.m_uNextFrameIndex = s.m_uNextFrameIndex)) ∧
    (s.m_RenderTarget = true → s.m_pFrameComposeRT.isSome = true →
      ∃ p, OverlayNextFrame e s = some p) ∧
    (∀ (a : StartAnswers) (s0 : gif_reader) (p0 : HRESULT × gif_reader),
      StartCapture a s0 = some p0 → SUCCEEDED p0.1 = true → 0 < a.global.frameCount →
      p0.2.m_cFrames = a.global.frameCount ∧ p0.2.m_uNextFrameIndex = 0 ∧
      p0.2.m_uNextFrameIndex < p0.2.m_cFrames) := by
  have hn0 : s.m_cFrames ≠ 0 := by omega
  have hmod : (s.m_uNextFrameIndex + 1) % 2 ^ 32 = s.m_uNextFrameIndex + 1 :=
    Nat.mod_eq_of_lt (by omega)
  refine ⟨?_, fun p hp => ?_, fun hrt hc => ?_, fun a s0 p0 hp hs hf => ?_⟩
  · by_cases hg : s.m_RenderTarget = true ∧ s.m_pFrameComposeRT.isSome = true
    · rw [ComposeNextFrame_eq_step IsLast env fuel s hg]
      obtain ⟨c, hc⟩ := Option.isSome_iff_exists.mp hg.2
      obtain ⟨p, hp⟩ := ComposeStep_isSome (env 0) s c hg.1 hc hn0
      obtain ⟨q1, -, -, q4, q5⟩ := ComposeStep_spec _ s p hp
      refine ⟨p, hp, q1, ?_⟩
      rw [q1]
      by_cases hs : SUCCEEDED p.1 = true
      · rw [(q4 hs).1]
        exact Nat.mod_lt _ (by omega)
      · rw [q5 hs]
        exact hn
    · refine ⟨(S_OK, s), ?_, rfl, hn⟩
      unfold ComposeNextFrame
      rw [if_neg hg]
  · obtain ⟨q1, -, -, q4, q5⟩ := OverlayNextFrame_spec e s p hp
    refine ⟨q1, fun hs => ?_, fun hs => q5 (by simp [hs])⟩
    rw [(q4 hs).1, hmod]
  · obtain ⟨c, hc'⟩ := Option.isSome_iff_exists.mp hc
    exact OverlayNextFrame_isSome e s c hrt hc' hn0
  · unfold StartCapture at hp
    rw [Option.map_eq_some'] at hp
    obtain ⟨q, hq, hp⟩ := hp
    obtain ⟨-, k2, -⟩ := StartCapture_prepare_spec a s0 q hq
    by_cases hqs : SUCCEEDED q.1 = true
    · obtain ⟨i1, i2⟩ := k2 hqs
      rw [if_pos hqs] at hp
      have e1 : p0.2.m_cFrames = q.2.m_cFrames := by
        rw [← hp]; unfold StartCaptureLoop; split_ifs <;> rfl
      have e2 : p0.2.m_uNextFrameIndex = q.2.m_uNextFrameIndex := by
        rw [← hp]; unfold StartCaptureLoop; split_ifs <;> rfl
      rw [e1, e2, i1, i2]
      exact ⟨rfl, rfl, hf⟩
    · rw [if_neg hqs] at hp
      rw [← hp] at hs
      exact absurd hs hqs

/-- Witness of C1: the sample three-frame animation at index 0. -/
theorem C1_next_frame_index_in_range_witness :
    (sampleReader.m_uNextFrameIndex < sampleReader.m_cFrames ∧ sampleReader.m_cFrames < 2 ^ 32) ∧
    ∃ p, ComposeNextFrame IsLastFrame (fun _ => sampleStep) 0 sampleReader = some p ∧
      p.2.m_cFrames = sampleReader.m_cFrames ∧ p.2.m_uNextFrameIndex < p.2.m_cFrames :=
  ⟨⟨by decide, by decide⟩,
   (C1_next_frame_index_in_range IsLastFrame (fun _ => sampleStep) 0 sampleStep sampleReader
      (by decide) (by decide)).1⟩

/-- C2, as stated, fails: in the sample animation frame 0 carries a delay field of 0
and frame 1 a delay field of 5 (k = 1, i = 0), and one `ComposeNextFrame` call
started at index 0 advances the index to 1, not to 2: the zero delay was replaced
by 90 ms and the loop did not run. -/
theorem C2_skip_ahead_counterexample :
    (sampleStep.decode 0).Delay = ⟨S_OK, PROPVARIANT.VT_UI2 0⟩ ∧
    (sampleStep.decode 1).Delay = ⟨S_OK, PROPVARIANT.VT_UI2 5⟩ ∧
    sampleReader.m_uNextFrameIndex = 0 ∧ sampleReader.m_cFrames = 3 ∧
    (ComposeNextFrame IsLastFrame (fun _ => sampleStep) 10 sampleReader).map
        (fun p => (p.1, p.2.m_uNextFrameIndex, p.2.m_uFrameDelay)) = some (S_OK, 1, 90) := by
  decide

/-- C2, amended: whatever the delay fields of the animation, a `ComposeNextFrame`
call with the render targets present is exactly one dispose-then-overlay step, for
every fuel; it returns, and when it succeeds the next-frame index has advanced by
one (modulo the frame count) and the frame delay is at least 20 ms, so that the
skip-ahead loop never runs a pass. -/
theorem C2_compose_is_one_step (IsLast : gif_reader → Bool) (env : Nat → StepAnswers)
    (fuel : Nat) (s : gif_reader)
    (hrt : s.m_RenderTarget = true) (hc : s.m_pFrameComposeRT.isSome = true)
    (hn : s.m_uNextFrameIndex < s.m_cFrames) (h32 : s.m_cFrames < 2 ^ 32) :
    ComposeNextFrame IsLast env fuel s = ComposeStep (env 0) s ∧
    ∃ p, ComposeNextFrame IsLast env fuel s = some p ∧
      (SUCCEEDED p.1 = true →
        p.2.m_uNextFrameIndex = (s.m_uNextFrameIndex + 1) % s.m_cFrames ∧
        20 ≤ p.2.m_uFrameDelay) := by
  have heq := ComposeNextFrame_eq_step IsLast env fuel s ⟨hrt, hc⟩
  refine ⟨heq, ?_⟩
  rw [heq]
  obtain ⟨c, hc'⟩ := Option.isSome_iff_exists.mp hc
  obtain ⟨p, hp⟩ := ComposeStep_isSome (env 0) s c hrt hc' (by omega)
  obtain ⟨-, -, -, q4, -⟩ := ComposeStep_spec _ s p hp
  refine ⟨p, hp, fun hs => ?_⟩
  obtain ⟨i1, i2, -⟩ := q4 hs
  rw [Nat.mod_eq_of_lt (show s.m_uNextFrameIndex + 1 < 2 ^ 32 by omega)] at i1
  exact ⟨i1, i2⟩

/-- Witness of the amended C2: the sample animation at index 0. -/
theorem C2_compose_is_one_step_witness :
    (sampleReader.m_RenderTarget = true ∧ sampleReader.m_pFrameComposeRT.isSome = true ∧
      sampleReader.m_uNextFrameIndex < sampleReader.m_cFrames ∧ sampleReader.m_cFrames < 2 ^ 32) ∧
    ComposeNextFrame IsLastFrame (fun _ => sampleStep) 0 sampleReader =
      ComposeStep sampleStep sampleReader :=
  ⟨⟨rfl, rfl, by decide, by decide⟩,
   (C2_compose_is_one_step IsLastFrame (fun _ => sampleStep) 0 sampleReader rfl rfl
      (by decide) (by decide)).1⟩

/-- C3: with disposal `DM_BACKGROUND` and a composed surface `C`,
`DisposeCurrentFrame` returns the result code of the clear transaction and changes
pixels inside the frame rectangle `m_framePosition` only: every pixel outside the
rectangle keeps its value, and when the call succeeds every pixel inside the
rectangle is transparent. -/
theorem C3_background_clears_frame_rectangle (a : SurfaceAnswers) (s : gif_reader) (C : Canvas)
    (hc : s.m_pFrameComposeRT = some C) (hd : s.m_uFrameDisposal = DM_BACKGROUND) :
    ∃ p C', DisposeCurrentFrame a s = some p ∧ p.1 = a.ClearEndDraw ∧
      p.2.m_pFrameComposeRT = some C' ∧
      (∀ x y, ¬ (s.m_framePosition.left ≤ x ∧ x < s.m_framePosition.right ∧
          s.m_framePosition.top ≤ y ∧ y < s.m_framePosition.bottom) → C' x y = C x y) ∧
      (SUCCEEDED p.1 = true →
        ∀ x y, s.m_framePosition.left ≤ x → x < s.m_framePosition.right →
          s.m_framePosition.top ≤ y → y < s.m_framePosition.bottom →
          C' x y = Pixel.transparent) := by
  refine ⟨(a.ClearEndDraw,
      { s with m_pFrameComposeRT := some (EndDraw a.ClearEndDraw C (ClearClipped s.m_framePosition C)) }),
    EndDraw a.ClearEndDraw C (ClearClipped s.m_framePosition C), ?_, rfl, rfl, ?_, ?_⟩
  · unfold DisposeCurrentFrame ClearCurrentFrameArea
    rw [hd, hc]
    rfl
  · intro x y hout
    have hcont : s.m_framePosition.contains x y = false := by
      unfold D2D1_RECT_F.contains
      by_contra hin
      simp only [Bool.not_eq_false, Bool.and_eq_true, decide_eq_true_eq] at hin
      exact hout ⟨hin.1.1.1, hin.1.1.2, hin.1.2, hin.2⟩
    unfold EndDraw ClearClipped
    by_cases hs : SUCCEEDED a.ClearEndDraw = true
    · rw [if_pos hs]
      simp only [hcont, Bool.false_eq_true, if_false]
    · rw [if_neg hs]
  · intro hs x y hx1 hx2 hy1 hy2
    change SUCCEEDED a.ClearEndDraw = true at hs
    have hcont : s.m_framePosition.contains x y = true := by
      simp [D2D1_RECT_F.contains, hx1, hx2, hy1, hy2]
    unfold EndDraw ClearClipped
    rw [if_pos hs]
    simp only [hcont, if_true]

/-- Witness of C3: the blue sample surface with a 2x2 frame rectangle. -/
theorem C3_background_clears_frame_rectangle_witness :
    ({ sampleReader with m_uFrameDisposal := DM_BACKGROUND, m_framePosition := ⟨0, 0, 2, 2⟩ }
        : gif_reader).m_pFrameComposeRT = some blueCanvas ∧
    ∃ p C', DisposeCurrentFrame sampleSurface
        { sampleReader with m_uFrameDisposal := DM_BACKGROUND, m_framePosition := ⟨0, 0, 2, 2⟩ } = some p ∧
      p.1 = S_OK ∧ p.2.m_pFrameComposeRT = some C' ∧
      (∀ x y, ¬ (0 ≤ x ∧ x < 2 ∧ 0 ≤ y ∧ y < 2) → C' x y = blueCanvas x y) ∧
      (SUCCEEDED p.1 = true → ∀ x y, 0 ≤ x → x < 2 → 0 ≤ y → y < 2 → C' x y = Pixel.transparent) :=
  ⟨rfl, C3_background_clears_frame_rectangle sampleSurface
    { sampleReader with m_uFrameDisposal := DM_BACKGROUND, m_framePosition := ⟨0, 0, 2, 2⟩ }
    blueCanvas rfl rfl⟩

/-- C4: disposal `DM_PREVIOUS` round-trips.  Let the composed surface be `C` and the
next frame declare disposal `DM_PREVIOUS`, at any index (at index 0 the overlay
clears the surface before it draws).  If `OverlayNextFrame` succeeds then the
following `DisposeCurrentFrame` returns; it never fails for a missing snapshot: it
succeeds exactly when the surface's `GetBitmap` and `CopyFromBitmap` do; and when it
succeeds the composed surface is `C` again. -/
theorem C4_previous_round_trip (e : StepAnswers) (a : SurfaceAnswers) (s : gif_reader) (C : Canvas)
    (hc : s.m_pFrameComposeRT = some C)
    (h1 : SUCCEEDED (e.decode s.m_uNextFrameIndex).Disposal.hr = true)
    (h2 : (e.decode s.m_uNextFrameIndex).Disposal.value = PROPVARIANT.VT_UI1 DM_PREVIOUS)
    (ho : ∃ p, OverlayNextFrame e s = some p ∧ SUCCEEDED p.1 = true) :
    ∃ p q, OverlayNextFrame e s = some p ∧ DisposeCurrentFrame a p.2 = some q ∧
      (SUCCEEDED q.1 = true ↔
        SUCCEEDED a.RestoreGetBitmap = true ∧ SUCCEEDED a.RestoreCopyFromBitmap = true) ∧
      (SUCCEEDED q.1 = true → q.2.m_pFrameComposeRT = some C) := by
  obtain ⟨p, hp, hs⟩ := ho
  obtain ⟨hd, hsaved⟩ := OverlayNextFrame_saved e s p hp hs h1 h2
  rw [hc] at hsaved
  obtain ⟨-, -, o3, -, -⟩ := OverlayNextFrame_spec e s p hp
  rw [hc] at o3
  obtain ⟨c2, hc2⟩ := Option.isSome_iff_exists.mp o3
  have hq := RestoreSavedFrame_eq a p.2 C c2 hsaved hc2
  rw [← DisposeCurrentFrame_previous a p.2 hd] at hq
  obtain ⟨k1, k2⟩ := RestoreSavedFrame_copy_spec a C c2
  exact ⟨p, _, hp, hq, k1, fun h => congrArg some (k2 h)⟩

/-- Witness of C4: the sample reader at index 0, where the overlay clears the blue
surface before it draws the frame that declares `DM_PREVIOUS`. -/
theorem C4_previous_round_trip_witness :
    (sampleReader.m_pFrameComposeRT = some blueCanvas ∧ sampleReader.m_uNextFrameIndex = 0 ∧
      (∃ p, OverlayNextFrame samplePreviousStep sampleReader = some p ∧ SUCCEEDED p.1 = true)) ∧
    ∃ p q, OverlayNextFrame samplePreviousStep sampleReader = some p ∧
      DisposeCurrentFrame sampleSurface p.2 = some q ∧
      (SUCCEEDED q.1 = true ↔
        SUCCEEDED sampleSurface.RestoreGetBitmap = true ∧
        SUCCEEDED sampleSurface.RestoreCopyFromBitmap = true) ∧
      (SUCCEEDED q.1 = true → q.2.m_pFrameComposeRT = some blueCanvas) :=
  ⟨⟨rfl, rfl, ⟨_, rfl, rfl⟩⟩,
   C4_previous_round_trip samplePreviousStep sampleSurface sampleReader blueCanvas rfl rfl rfl
     ⟨_, rfl, rfl⟩⟩

/-- C5: the frame delay `GetRawFrame` computes.  For a delay field holding the
unsigned 16-bit value `d` the delay step returns `S_OK` (`10 * d` fits 32 bits)
with delay `10 * d` ms when `10 * d ≥ 20` and 90 ms otherwise; for an absent field
it keeps the result code and gives 90 ms.  `GetRawFrame` returns, and after a
success the delay is at least 20 ms and is the value just described.  Raw 1 gives
90 and raw 3 gives 30. -/
theorem C5_frame_delay (resp : FrameAnswers) (s : gif_reader) (d : Nat)
    (hd : d < 65536) (hrt : s.m_RenderTarget = true) :
    (∀ hr old, SUCCEEDED resp.Delay.hr = true → resp.Delay.value = PROPVARIANT.VT_UI2 d →
      GetRawFrame_delayValue resp.Delay hr old = (S_OK, if 20 ≤ 10 * d then 10 * d else 90)) ∧
    (∀ hr old, SUCCEEDED hr = true → SUCCEEDED resp.Delay.hr = false →
      GetRawFrame_delayValue resp.Delay hr old = (hr, 90)) ∧
    (∃ p, GetRawFrame resp s = some p ∧
      (SUCCEEDED p.1 = true →
        20 ≤ p.2.m_uFrameDelay ∧
        (SUCCEEDED resp.Delay.hr = true → resp.Delay.value = PROPVARIANT.VT_UI2 d →
          p.2.m_uFrameDelay = if 20 ≤ 10 * d then 10 * d else 90) ∧
        (SUCCEEDED resp.Delay.hr = false → p.2.m_uFrameDelay = 90))) ∧
    GetRawFrame_delayValue ⟨S_OK, PROPVARIANT.VT_UI2 1⟩ S_OK 0 = (S_OK, 90) ∧
    GetRawFrame_delayValue ⟨S_OK, PROPVARIANT.VT_UI2 3⟩ S_OK 0 = (S_OK, 30) := by
  refine ⟨fun hr old h1 h2 => GetRawFrame_delayValue_present _ hr old d hd h1 h2,
    fun hr old h0 h1 => GetRawFrame_delayValue_absent _ hr old h0 h1, ?_, by decide, by decide⟩
  obtain ⟨p, hp⟩ := GetRawFrame_isSome resp s hrt
  refine ⟨p, hp, fun hs => ?_⟩
  obtain ⟨hr, old, h0, hv⟩ := GetRawFrame_delay_value resp s p hp hs
  refine ⟨((GetRawFrame_spec resp s p hp).2 hs).1, fun h1 h2 => ?_, fun h1 => ?_⟩
  · rw [hv, GetRawFrame_delayValue_present _ hr old d hd h1 h2]
  · rw [hv, GetRawFrame_delayValue_absent _ hr old h0 h1]

/-- Witness of C5: a frame of the sample animation with delay field 3. -/
theorem C5_frame_delay_witness :
    (3 < 65536 ∧ sampleReader.m_RenderTarget = true) ∧
    ∃ p, GetRawFrame (sampleFrame 3 DM_NONE) sampleReader = some p ∧
      (SUCCEEDED p.1 = true →
        20 ≤ p.2.m_uFrameDelay ∧
        (SUCCEEDED (sampleFrame 3 DM_NONE).Delay.hr = true →
          (sampleFrame 3 DM_NONE).Delay.value = PROPVARIANT.VT_UI2 3 →
          p.2.m_uFrameDelay = if 20 ≤ 10 * 3 then 10 * 3 else 90) ∧
        (SUCCEEDED (sampleFrame 3 DM_NONE).Delay.hr = false → p.2.m_uFrameDelay = 90)) :=
  ⟨⟨by decide, rfl⟩, (C5_frame_delay (sampleFrame 3 DM_NONE) sampleReader 3 (by decide) rfl).2.2.1⟩

/-- C6: the render size.  For a logical canvas `w` x `h` (unsigned 16-bit) and a
pixel-aspect byte `r`, the size computed in `FLOAT` arithmetic is `(w, h)` when
`r = 0`, `(w, ⌊64 h / (r + 15)⌋)` when `r + 15 > 64` and `(⌊w (r + 15) / 64⌋, h)`
otherwise; neither dimension exceeds the logical one; `r = 113` gives
`(w, ⌊h / 2⌋)`; and `GetGlobalMetadata` stores exactly this size when the three
fields are readable. -/
theorem C6_render_size (w h r : ℕ) (hw : w < 65536) (hh : h < 65536) (hr : r < 256) :
    imagePixelSize w h r =
      (if r = 0 then (w, h)
       else if 64 < r + 15 then (w, 64 * h / (r + 15))
       else (w * (r + 15) / 64, h)) ∧
    (imagePixelSize w h r).1 ≤ w ∧ (imagePixelSize w h r).2 ≤ h ∧
    imagePixelSize w h 113 = (w, h / 2) ∧
    (∀ (g : GlobalAnswers) (s : gif_reader),
      SUCCEEDED g.GetFrameCount = true → SUCCEEDED g.GetMetadataQueryReader = true →
      SUCCEEDED g.Width.hr = true → g.Width.value = PROPVARIANT.VT_UI2 w →
      SUCCEEDED g.Height.hr = true → g.Height.value = PROPVARIANT.VT_UI2 h →
      SUCCEEDED g.PixelAspectRatio.hr = true → g.PixelAspectRatio.value = PROPVARIANT.VT_UI1 r →
      (GetGlobalMetadata g s).2.m_cxGifImage = w ∧ (GetGlobalMetadata g s).2.m_cyGifImage = h ∧
      ((GetGlobalMetadata g s).2.m_cxGifImagePixel, (GetGlobalMetadata g s).2.m_cyGifImagePixel) =
        imagePixelSize w h r) := by
  have heq := imagePixelSize_eq w h r hw hh hr
  refine ⟨heq, ?_, ?_, ?_, ?_⟩
  · rw [heq]
    split_ifs with h0 h1
    · exact le_refl _
    · exact le_refl _
    · show w * (r + 15) / 64 ≤ w
      apply Nat.div_le_of_le_mul
      have : w * (r + 15) ≤ w * 64 := Nat.mul_le_mul_left w (by omega)
      omega
  · rw [heq]
    split_ifs with h0 h1
    · exact le_refl _
    · show 64 * h / (r + 15) ≤ h
      apply Nat.div_le_of_le_mul
      have : 64 * h ≤ (r + 15) * h := Nat.mul_le_mul_right h (by omega)
      omega
    · exact le_refl _
  · rw [imagePixelSize_eq w h 113 hw hh (by norm_num)]
    have : 64 * h / (113 + 15) = h / 2 := by omega
    simp [this]
  · intro g s g1 g2 w1 w2 h1 h2 r1 r2
    have h0 : SUCCEEDED (GetGlobalMetadata_openHr g) = true := by
      unfold GetGlobalMetadata_openHr
      rw [if_pos g1]
      exact g2
    obtain ⟨k1, k2, k3, k4⟩ := GetGlobalMetadata_size_readable g s w h r h0 w1 w2 h1 h2 r1 r2
    exact ⟨k1, k2, by rw [k3, k4]⟩

/-- Witness of C6: a 100 x 75 canvas with aspect byte 113 (ratio 2.0). -/
theorem C6_render_size_witness :
    ((100 : ℕ) < 65536 ∧ (75 : ℕ) < 65536 ∧ (113 : ℕ) < 256) ∧
    imagePixelSize 100 75 113 = (100, 75 / 2) :=
  ⟨⟨by decide, by decide, by decide⟩,
   (C6_render_size 100 75 113 (by decide) (by decide) (by decide)).2.2.2.1⟩

/-- C7, as stated, fails: a source that opens and reports frame count 0, on a
platform whose every call succeeds, makes `StartCapture` return `S_OK`; the
production loop is not started. -/
theorem C7_zero_frames_counterexample :
    SUCCEEDED (sampleStart 0).CreateDecoderFromFilename = true ∧
    SUCCEEDED (sampleStart 0).global.GetFrameCount = true ∧
    (sampleStart 0).global.frameCount = 0 ∧
    (StartCapture (sampleStart 0) idleReader).map (fun p => (p.1, p.2.m_captureLoopStarted)) =
      some (S_OK, false) := by
  decide

/-- C7, amended: for a source whose decoder opens and reports frame count 0,
`StartCapture` does not start the production loop and returns what its
preparation (global metadata, then device resources) returned, result code and
state alike: a success when the preparation succeeded. -/
theorem C7_zero_frames_no_loop (a : StartAnswers) (s : gif_reader)
    (hinit : FAILED (Initialize a s).1 = false)
    (hdec : SUCCEEDED a.CreateDecoderFromFilename = true)
    (hcount : SUCCEEDED a.global.GetFrameCount = true)
    (hzero : a.global.frameCount = 0) :
    StartCapture a s = StartCapture_prepare a s ∧
    ∀ p, StartCapture a s = some p → p.2.m_captureLoopStarted = s.m_captureLoopStarted := by
  have key : StartCapture a s = StartCapture_prepare a s := by
    unfold StartCapture
    cases hq : StartCapture_prepare a s with
    | none => rfl
    | some q =>
      obtain ⟨-, -, k3⟩ := StartCapture_prepare_spec a s q hq
      have hc : q.2.m_cFrames = 0 := by rw [k3 hinit hdec hcount, hzero]
      simp only [Option.map_some', hc, lt_irrefl, if_false, ite_self]
  refine ⟨key, fun p hp => ?_⟩
  rw [key] at hp
  exact (StartCapture_prepare_spec a s p hp).1

/-- Witness of the amended C7: the sample source with frame count 0. -/
theorem C7_zero_frames_no_loop_witness :
    (FAILED (Initialize (sampleStart 0) idleReader).1 = false ∧
      SUCCEEDED (sampleStart 0).CreateDecoderFromFilename = true ∧
      SUCCEEDED (sampleStart 0).global.GetFrameCount = true ∧
      (sampleStart 0).global.frameCount = 0) ∧
    StartCapture (sampleStart 0) idleReader = StartCapture_prepare (sampleStart 0) idleReader :=
  ⟨⟨by decide, by decide, by decide, rfl⟩,
   (C7_zero_frames_no_loop (sampleStart 0) idleReader (by decide) (by decide) (by decide) rfl).1⟩

/-- C8, as stated, fails: on a consumer buffer of `2 ^ 31` bytes the `(int)` cast of
`BufferSize` is negative, so a request of 1 byte reallocates and leaves buffer size
1 instead of `max (2 ^ 31) 1`. -/
theorem C8_grow_only_counterexample :
    ResizeFrameBuffer true ⟨some 2147483648, 2147483648, 0, 0, 0, 0⟩ 1 =
      (S_OK, ⟨some 1, 1, 0, 0, 0, 0⟩) := by
  decide

/-- C8, amended: grow-only buffer for sizes that fit an `int`.  For a buffer size
`s < 2 ^ 31` and a requested size `n` whose allocation succeeds,
`ResizeFrameBuffer` returns `S_OK` with buffer size `max s n`, leaves `FRAME_INFO`
untouched when `n ≤ s` and reallocates when `n > s`; over a run of such calls the
buffer size is the largest of `s` and the requests so far, so it never decreases
and changes only on a request larger than `s` and than every earlier request. -/
theorem C8_grow_only (f : FRAME_INFO) (n : Int) (pre : List Int)
    (hs : f.BufferSize < 2 ^ 31) (hn : n < 2 ^ 31) (hpre : ∀ m ∈ pre, m < 2 ^ 31) :
    ((ResizeFrameBuffer true f n).1 = S_OK ∧
      ((ResizeFrameBuffer true f n).2.BufferSize : Int) = max (f.BufferSize : Int) n ∧
      (n ≤ (f.BufferSize : Int) → (ResizeFrameBuffer true f n).2 = f) ∧
      ((f.BufferSize : Int) < n →
        (ResizeFrameBuffer true f n).2.PtrFrameBuffer = some (ResizeFrameBuffer true f n).2.BufferSize)) ∧
    ((resizeAll f pre).BufferSize : Int) = pre.foldl max (f.BufferSize : Int) ∧
    (resizeAll f pre).BufferSize ≤ (resizeAll f (pre ++ [n])).BufferSize ∧
    ((resizeAll f (pre ++ [n])).BufferSize ≠ (resizeAll f pre).BufferSize →
      (f.BufferSize : Int) < n ∧ ∀ m ∈ pre, m < n) := by
  obtain ⟨k1, k2, -, k4, k5⟩ := ResizeFrameBuffer_spec f n hs hn
  obtain ⟨r1, r2⟩ := resizeAll_size pre f hs hpre
  obtain ⟨j1, j2, -, -, -⟩ := ResizeFrameBuffer_spec (resizeAll f pre) n r2 hn
  have happ : resizeAll f (pre ++ [n]) = (ResizeFrameBuffer true (resizeAll f pre) n).2 := by
    unfold resizeAll
    rw [List.foldl_append]
    rfl
  obtain ⟨l1, l2⟩ := le_foldl_max pre (f.BufferSize : Int)
  refine ⟨⟨k1, k2, k4, k5⟩, r1, ?_, fun hne => ?_⟩
  · rw [happ]
    have : ((resizeAll f pre).BufferSize : Int) ≤
        ((ResizeFrameBuffer true (resizeAll f pre) n).2.BufferSize : Int) := by
      rw [j2]; exact le_max_left _ _
    exact_mod_cast this
  · rw [happ] at hne
    have hne' : ((ResizeFrameBuffer true (resizeAll f pre) n).2.BufferSize : Int) ≠
        ((resizeAll f pre).BufferSize : Int) := by exact_mod_cast hne
    rw [j2] at hne'
    have hlt : ((resizeAll f pre).BufferSize : Int) < n := by
      by_contra hge
      exact hne' (max_eq_left (not_lt.mp hge))
    rw [r1] at hlt
    exact ⟨lt_of_le_of_lt l1 hlt, fun m hm => lt_of_le_of_lt (l2 m hm) hlt⟩

/-- Witness of the amended C8: the 64-byte sample buffer, after requests of 16 and
100 bytes, asked for 80 bytes. -/
theorem C8_grow_only_witness :
    (sampleFrameInfo.BufferSize < 2 ^ 31 ∧ (80 : Int) < 2 ^ 31 ∧
      ∀ m ∈ [(16 : Int), 100], m < 2 ^ 31) ∧
    ((resizeAll sampleFrameInfo [16, 100]).BufferSize : Int) =
      [(16 : Int), 100].foldl max (sampleFrameInfo.BufferSize : Int) ∧
    (resizeAll sampleFrameInfo [16, 100]).BufferSize ≤
      (resizeAll sampleFrameInfo ([16, 100] ++ [80])).BufferSize :=
  ⟨⟨by decide, by decide, by decide⟩,
   (C8_grow_only sampleFrameInfo 80 [16, 100] (by decide) (by decide) (by decide)).2.1,
   (C8_grow_only sampleFrameInfo 80 [16, 100] (by decide) (by decide) (by decide)).2.2.1⟩

/-- C9: evaluation of `GetFrame` at failing inputs.  The wait is signalled and the
consumer passes a 64-byte buffer.  When `Map` fails, when the staging texture
cannot be created and when the row copy fails, `GetFrame` returns the failure but
the buffer stays allocated with its size; only a failed allocation empties it. -/
theorem C9_failure_keeps_buffer :
    GetFrame { sampleGetFrame with Map := E_FAIL } sampleReader sampleFrameInfo =
      some (E_FAIL, sampleFrameInfo) ∧
    GetFrame { sampleGetFrame with CreateTexture2D := E_FAIL } sampleReader sampleFrameInfo =
      some (E_FAIL, sampleFrameInfo) ∧
    GetFrame { sampleGetFrame with MFCopyImage := E_FAIL } sampleReader sampleFrameInfo =
      some (E_FAIL, { sampleFrameInfo with LastTimeStamp := 1 }) ∧
    GetFrame { sampleGetFrame with RowPitch := 32, allocates := false } sampleReader sampleFrameInfo =
      some (E_OUTOFMEMORY, { sampleFrameInfo with PtrFrameBuffer := none, BufferSize := 0 }) := by
  decide

/-- C10: evaluation of `GetGlobalMetadata` at the failing input.  Width, height and
pixel aspect are readable and the application block carries `NETSCAPE2.0`, but the
data sub-block cannot be read: `GetGlobalMetadata` returns that failure (has-loop
stays false), whereas the same source without the application block succeeds. -/
theorem C10_unreadable_loop_data_fails :
    ((GetGlobalMetadata unreadableLoopData sampleReader).1,
      (GetGlobalMetadata unreadableLoopData sampleReader).2.m_fHasLoop) = (E_FAIL, false) ∧
    (GetGlobalMetadata (sampleGlobal 3) sampleReader).1 = S_OK := by
  decide

/-- C11: evaluation of the production loop at the failing input.  On the sample
three-frame animation the decoder cannot deliver a frame.  The first
`ComposeNextFrame` returns `E_FAIL`; the task does not leave the loop: after one
iteration it has signalled a new frame and is still running, and the following
iterations run `ComposeNextFrame` again.  When the decoder fails during the first
iteration only, the second iteration composes frame 0 with success. -/
theorem C11_loop_continues_after_failed_compose :
    (CaptureLoop IsLastFrame EndOfAnimation 0 persistentFailure 1
        (CaptureTask.start sampleReader blueCanvas)).map
      (fun t => (t.composeResults, t.newFrameEvents, t.returned, t.reader.m_uNextFrameIndex)) =
      some ([E_FAIL], 1, false, 0) ∧
    (CaptureLoop IsLastFrame EndOfAnimation 0 persistentFailure 3
        (CaptureTask.start sampleReader blueCanvas)).map
      (fun t => (t.composeResults, t.newFrameEvents, t.returned, t.reader.m_uNextFrameIndex)) =
      some ([E_FAIL, E_FAIL, E_FAIL], 3, false, 0) ∧
    (CaptureLoop IsLastFrame EndOfAnimation 0 transientFailure 2
        (CaptureTask.start sampleReader blueCanvas)).map
      (fun t => (t.composeResults, t.newFrameEvents, t.returned, t.reader.m_uNextFrameIndex)) =
      some ([E_FAIL, S_OK], 2, false, 1) := by
  decide

/-- C12, as stated, fails: the sample reader displays a 2x2 frame with disposal
`DM_BACKGROUND` on the blue surface, and the decoder cannot deliver the next frame.
`ComposeNextFrame` returns `E_FAIL`, yet the pixel at (0, 0), blue before the call,
is transparent after it: the disposal had already cleared the rectangle. -/
theorem C12_atomicity_counterexample :
    backgroundReader.m_pFrameComposeRT = some blueCanvas ∧
    blueCanvas 0 0 = ⟨255, 0, 0, 255⟩ ∧
    (ComposeNextFrame IsLastFrame (fun _ => failingStep) 0 backgroundReader).map
      (fun p => (p.1, p.2.m_pFrameComposeRT.map (fun c => (c 0 0, c 2 2)))) =
      some (E_FAIL, some (Pixel.transparent, ⟨255, 0, 0, 255⟩)) :=
  ⟨rfl, by decide, by decide⟩

/-- C12, amended: a failed `ComposeNextFrame` leaves the composed surface as the
dispose step of that call left it.  With the render targets present and the index
in range the call returns; when it returns a failure, the surface is the one
after `DisposeCurrentFrame` (a failed overlay changes no pixel), and it is the
surface from before the call when the dispose step itself failed or when the
displayed frame's disposal is `DM_UNDEFINED` or `DM_NONE`. -/
theorem C12_failed_compose_keeps_disposed_surface (IsLast : gif_reader → Bool)
    (env : Nat → StepAnswers) (fuel : Nat) (s : gif_reader)
    (hrt : s.m_RenderTarget = true) (hc : s.m_pFrameComposeRT.isSome = true)
    (hn : s.m_uNextFrameIndex < s.m_cFrames) :
    ∃ p q, ComposeNextFrame IsLast env fuel s = some p ∧
      DisposeCurrentFrame (env 0).surface s = some q ∧
      (SUCCEEDED p.1 = false →
        p.2.m_pFrameComposeRT = q.2.m_pFrameComposeRT ∧
        (SUCCEEDED q.1 = false → p.2.m_pFrameComposeRT = s.m_pFrameComposeRT) ∧
        (s.m_uFrameDisposal = DM_UNDEFINED ∨ s.m_uFrameDisposal = DM_NONE →
          p.2.m_pFrameComposeRT = s.m_pFrameComposeRT)) := by
  rw [ComposeNextFrame_eq_step IsLast env fuel s ⟨hrt, hc⟩]
  obtain ⟨c, hc'⟩ := Option.isSome_iff_exists.mp hc
  obtain ⟨p, hp⟩ := ComposeStep_isSome (env 0) s c hrt hc' (by omega)
  have hp' := hp
  unfold ComposeStep at hp'
  rw [Option.bind_eq_some] at hp'
  obtain ⟨q, hq, hstep⟩ := hp'
  obtain ⟨d1, d2⟩ := DisposeCurrentFrame_failed _ s q hq
  have key : SUCCEEDED p.1 = false → p.2.m_pFrameComposeRT = q.2.m_pFrameComposeRT := by
    intro hf
    by_cases hs : SUCCEEDED q.1 = true
    · rw [if_pos hs] at hstep
      exact OverlayNextFrame_failed _ _ _ hstep (by simp [hf])
    · rw [if_neg hs] at hstep
      replace hstep := Option.some.inj hstep
      subst hstep
      rfl
  refine ⟨p, q, hp, hq, fun hf => ⟨key hf, fun hqf => ?_, fun hd => ?_⟩⟩
  · rw [key hf]
    exact d1 (by simp [hqf])
  · rw [key hf]
    exact d2 hd

/-- Witness of the amended C12: the reader that displays a frame with disposal
`DM_BACKGROUND`, on the animation whose decoder fails. -/
theorem C12_failed_compose_keeps_disposed_surface_witness :
    (backgroundReader.m_RenderTarget = true ∧ backgroundReader.m_pFrameComposeRT.isSome = true ∧
      backgroundReader.m_uNextFrameIndex < backgroundReader.m_cFrames) ∧
    ∃ p q, ComposeNextFrame IsLastFrame (fun _ => failingStep) 0 backgroundReader = some p ∧
      DisposeCurrentFrame failingStep.surface backgroundReader = some q ∧
      (SUCCEEDED p.1 = false →
        p.2.m_pFrameComposeRT = q.2.m_pFrameComposeRT ∧
        (SUCCEEDED q.1 = false → p.2.m_pFrameComposeRT = backgroundReader.m_pFrameComposeRT) ∧
        (backgroundReader.m_uFrameDisposal = DM_UNDEFINED ∨
            backgroundReader.m_uFrameDisposal = DM_NONE →
          p.2.m_pFrameComposeRT = backgroundReader.m_pFrameComposeRT)) :=
  ⟨⟨rfl, rfl, by decide⟩,
   C12_failed_compose_keeps_disposed_surface IsLastFrame (fun _ => failingStep) 0 backgroundReader
     rfl rfl (by decide)⟩

end GifReader
